import Mathlib

/-!
# Polyscope: `CameraView` and `PointCloudVectorQuantity`

A shallow embedding of `src/camera_view.cpp` and
`src/point_cloud_vector_quantity.cpp`.

* Floating point numbers are idealised as rationals (`ℚ`), so that the frustum
  arithmetic is exact.
* Pointers are object identities: an `Image*` is an index into the store of
  images created by `new Image`, a `gl::GLProgram*` is a handle handed out by the
  GPU layer, and `nullptr` is `none`.
* The GPU layer, the diagnostics sink and the global scene state are external
  to the two files; they are carried in an explicit `World` that every member
  function receives and returns.
-/

namespace Polyscope

/-! ## Vectors -/

/-- The type `glm::vec3`, with rational components. -/
@[ext]
structure Vec3 where
  x : ℚ
  y : ℚ
  z : ℚ
deriving DecidableEq, Repr

/-- The type `geometrycentral::Vector3`, with rational components. -/
structure Vector3 where
  x : ℚ
  y : ℚ
  z : ℚ
deriving DecidableEq, Repr

/-- The type `geometrycentral::Vector2`, with rational components. -/
structure Vector2 where
  x : ℚ
  y : ℚ
deriving DecidableEq, Repr

instance : Add Vec3 := ⟨fun a b => ⟨a.x + b.x, a.y + b.y, a.z + b.z⟩⟩

instance : Sub Vec3 := ⟨fun a b => ⟨a.x - b.x, a.y - b.y, a.z - b.z⟩⟩

/-- Scalar times vector, `s * v` of glm. -/
instance : HMul ℚ Vec3 Vec3 := ⟨fun s v => ⟨s * v.x, s * v.y, s * v.z⟩⟩

/-- Vector times scalar, `v * s` of glm. -/
instance : HMul Vec3 ℚ Vec3 := ⟨fun v s => ⟨v.x * s, v.y * s, v.z * s⟩⟩

/-- The helper `toV` of `camera_view.cpp`: `Vector3{x.x, x.y, x.z}`. -/
def toV (x : Vec3) : Vector3 := ⟨x.x, x.y, x.z⟩

/-! ## The GPU layer -/

/-- A `gl::GLProgram*` that is not null. -/
abbrev Handle := Nat

/-- The enumeration `gl::DrawMode`, as far as the two files use it. -/
inductive DrawMode where
  | Points
  | Lines
  | Triangles
deriving DecidableEq, Repr

/-- A 4x4 matrix as handed to `setUniform` through `glm::value_ptr`. -/
abbrev Mat4 := List ℚ

/-- The value of a uniform. -/
inductive UniformVal where
  | mat4 (m : Mat4)
  | float (x : ℚ)
  | vec3 (v : Vector3)
  | rgb (r g b : ℚ)
deriving DecidableEq, Repr

/-- The buffer handed to `setAttribute`. -/
inductive AttrData where
  | vec3s (xs : List Vector3)
  | vec2s (xs : List Vector2)
deriving DecidableEq, Repr

/-- Modelled from the spec: the GPU program capability
(`create`, `setUniform`, `setAttribute`, `setTexture2D`, `draw`, `release`) of
`polyscope/gl`, which is not part of the sources at hand, together with the two
global OpenGL calls of the draw functions. One constructor per call, with the
arguments of the call. -/
inductive GLCall where
  | enable (cap : String)
  | blendFunc (sfactor dfactor : String)
  | create (h : Handle) (shaders : List String) (mode : DrawMode)
  | setUniform (h : Handle) (name : String) (v : UniformVal)
  | setAttribute (h : Handle) (name : String) (data : AttrData)
  | setTexture2D (h : Handle) (name : String) (pixels : List Nat) (width height : Nat)
      (flag : Bool)
  | draw (h : Handle)
  | delete (h : Handle)
deriving DecidableEq, Repr

/-- Modelled from the spec: the state of the GPU layer, which is not part of the
sources at hand: the number of programs created so far and every call made, oldest
first. -/
structure GLState where
  next : Nat
  log : List GLCall
deriving DecidableEq, Repr

/-- The call `new gl::GLProgram(shaders..., mode)`: a program with a fresh identity. -/
def GLState.newProgram (g : GLState) (shaders : List String) (mode : DrawMode) :
    Handle × GLState :=
  (g.next, { next := g.next + 1, log := g.log ++ [GLCall.create g.next shaders mode] })

/-- Any other call on the GPU layer: it is appended to the log. The log records that
the call is issued. In the source a call through a pointer that has been released
(`delete`, `setUniform`, `draw`, ... after `delete`) is undefined behaviour: what the
log shows after such a call is not a statement about the source, and `released`
tells from a log whether a handle has been deleted. -/
def GLState.call (g : GLState) (c : GLCall) : GLState :=
  { g with log := g.log ++ [c] }

/-- Is this the call `new gl::GLProgram(...)`? -/
def GLCall.isCreate : GLCall → Bool
  | .create _ _ _ => true
  | _ => false

/-- Has the program `h` been released (`delete h`) in this log? -/
def released (log : List GLCall) (h : Handle) : Bool :=
  log.any fun c => c == GLCall.delete h

/-- The buffer most recently uploaded to the attribute `name` of the program `h`. -/
def uploaded (log : List GLCall) (h : Handle) (name : String) : Option AttrData :=
  log.foldl
    (fun acc c =>
      match c with
      | .setAttribute k n d => if k = h ∧ n = name then some d else acc
      | _ => acc)
    none

/-! ## The world around the two classes -/

/-- The class `Image` of `camera_view.cpp`. -/
structure Image where
  name : String
  data : List Nat
  width : Nat
  height : Nat
deriving DecidableEq, Repr

/-- The constructor `Image::Image`: a deep copy of the first `width * height * 3`
bytes behind the pointer `data_` (`size_t` taken as 64 bits wide). The caller's
buffer is the list of bytes starting at `data_`. -/
def Image.new (name_ : String) (data_ : List Nat) (width_ height_ : Nat) : Image :=
  let aSize := width_ * height_ * 3 % 2 ^ 64
  { name := name_, width := width_, height := height_, data := data_.take aSize }

/-- Everything the member functions reach outside their own object: the global
scene state (`state::lengthScale`, `state::center`), the camera of the viewer
(`view::getCameraViewMatrix` and its siblings), the GPU layer, the images on the
free store (an `Image*` is an index into `imageStore`), and the messages passed to
`error`, oldest first. -/
structure World where
  lengthScale : ℚ
  center : Vector3
  cameraViewMatrix : Mat4
  cameraPerspectiveMatrix : Mat4
  cameraWorldPosition : Vector3
  gl : GLState
  imageStore : List Image
  errors : List String
deriving DecidableEq, Repr

/-- The call `error(msg)` on the diagnostics sink. -/
def World.error (w : World) (msg : String) : World :=
  { w with errors := w.errors ++ [msg] }

/-- The statement `new Image(...)`: the object is put on the free store and its
address returned. -/
def World.newImage (w : World) (im : Image) : Nat × World :=
  (w.imageStore.length, { w with imageStore := w.imageStore ++ [im] })

/-! ## `std::map<std::string, V>` -/

/-- A `std::map` with string keys, as the list of its entries. -/
abbrev StdMap (V : Type) := List (String × V)

/-- The member `find`: `none` stands for `end()`. -/
def StdMap.find {V : Type} (m : StdMap V) (k : String) : Option V :=
  match m with
  | [] => none
  | (k', v) :: rest => if k = k' then some v else StdMap.find rest k

/-- The member `size`. -/
def StdMap.size {V : Type} (m : StdMap V) : Nat := m.length

/-- The statement `m[k] = v`: the value of an existing key is overwritten, a new key
is inserted at its place in the key order. -/
def StdMap.assign {V : Type} (m : StdMap V) (k : String) (v : V) : StdMap V :=
  match m with
  | [] => [(k, v)]
  | (k', v') :: rest =>
    if k = k' then (k, v) :: rest
    else if k < k' then (k, v) :: (k', v') :: rest
    else (k', v') :: StdMap.assign rest k v

/-! ## `CameraView` -/

/-- The type `glm::vec2` of the focal lengths. -/
structure Vec2 where
  x : ℚ
  y : ℚ
deriving DecidableEq, Repr

/-- Modelled from the spec: the value type `CameraParameters`, whose declaration is
not part of the sources at hand: position, look/up/right direction vectors (the
results of `getPosition`, `getLookDir`, `getUpDir`, `getRightDir`) and focal
lengths. -/
structure CameraParameters where
  position : Vec3
  lookDir : Vec3
  upDir : Vec3
  rightDir : Vec3
  focalLengths : Vec2
deriving DecidableEq, Repr

/-- The data members of `CameraView` that `camera_view.cpp` reads and writes. -/
structure CameraView where
  name : String
  enabled : Bool
  parameters : CameraParameters
  images : StdMap Nat
  activeImage : Option Nat
  imageTransparency : ℚ
  cameraSkeletonProgram : Option Handle
  imageViewProgram : Option Handle
deriving DecidableEq, Repr

/-- The three out-parameters of `CameraView::getCameraPoints`. -/
structure CameraPoints where
  rootV : Vector3
  framePoints : Fin 4 → Vector3
  dirFrame : Fin 3 → Vector3

/-- The local `cameraDrawSize` of `getCameraPoints` (line 143):
`state::lengthScale * 0.1`. -/
def CameraView.cameraDrawSize (w : World) : ℚ := w.lengthScale * (1 / 10)

/-- The local `frameDrawWidth` of `getCameraPoints` (line 144):
`0.5 / parameters.focalLengths.x * cameraDrawSize`. -/
def CameraView.frameDrawWidth (cv : CameraView) (w : World) : ℚ :=
  1 / 2 / cv.parameters.focalLengths.x * CameraView.cameraDrawSize w

/-- The local `frameDrawHeight` of `getCameraPoints` (line 145):
`0.5 / parameters.focalLengths.y * cameraDrawSize`. -/
def CameraView.frameDrawHeight (cv : CameraView) (w : World) : ℚ :=
  1 / 2 / cv.parameters.focalLengths.y * CameraView.cameraDrawSize w

/-- The member function `CameraView::getCameraPoints` (lines 135-165). -/
def CameraView.getCameraPoints (cv : CameraView) (w : World) : CameraPoints :=
  let root := cv.parameters.position
  let lookDir := cv.parameters.lookDir
  let upDir := cv.parameters.upDir
  let rightDir := cv.parameters.rightDir
  let cameraDrawSize : ℚ := CameraView.cameraDrawSize w
  let frameDrawWidth : ℚ := cv.frameDrawWidth w
  let frameDrawHeight : ℚ := cv.frameDrawHeight w
  let upperLeft := root + cameraDrawSize * lookDir + upDir * frameDrawHeight - rightDir * frameDrawWidth
  let lowerLeft := root + cameraDrawSize * lookDir - upDir * frameDrawHeight - rightDir * frameDrawWidth
  let upperRight := root + cameraDrawSize * lookDir + upDir * frameDrawHeight + rightDir * frameDrawWidth
  let lowerRight := root + cameraDrawSize * lookDir - upDir * frameDrawHeight + rightDir * frameDrawWidth
  { rootV := toV root
    framePoints := ![toV upperRight, toV upperLeft, toV lowerLeft, toV lowerRight]
    dirFrame := ![toV lookDir, toV upDir, toV rightDir] }

/-- The member function `CameraView::prepareCameraSkeleton` (lines 96-133). The loop
`for (int i = 0; i < 4; i++)` runs over `List.finRange 4`; its body pushes four
points. -/
def CameraView.prepareCameraSkeleton (cv : CameraView) (w : World) : CameraView × World :=
  let (prog, gl1) := w.gl.newProgram ["WIREFRAME_VERT_SHADER", "WIREFRAME_FRAG_SHADER"] DrawMode.Lines
  let pts := cv.getCameraPoints w
  let root := pts.rootV
  let framePoints := pts.framePoints
  let positions : List Vector3 :=
    (List.finRange 4).foldl
      (fun positions i =>
        positions ++ [root] ++ [framePoints i] ++ [framePoints i]
          ++ [framePoints ⟨(i.val + 1) % 4, Nat.mod_lt _ (by decide)⟩])
      []
  let gl2 := gl1.call (GLCall.setAttribute prog "a_position" (AttrData.vec3s positions))
  ({ cv with cameraSkeletonProgram := some prog }, { w with gl := gl2 })

/-- The member function `CameraView::drawWireframe` (lines 45-63). `gl::RGB_BLACK` is
the colour (0, 0, 0). -/
def CameraView.drawWireframe (cv : CameraView) (w : World) : CameraView × World :=
  let (cv1, w1) := if cv.cameraSkeletonProgram = none then cv.prepareCameraSkeleton w else (cv, w)
  match cv1.cameraSkeletonProgram with
  | none => (cv1, w1)
  | some p =>
    let g := w1.gl.call (GLCall.enable "GL_BLEND")
    let g := g.call (GLCall.blendFunc "GL_SRC_ALPHA" "GL_ONE_MINUS_SRC_ALPHA")
    let g := g.call (GLCall.setUniform p "u_viewMatrix" (UniformVal.mat4 w1.cameraViewMatrix))
    let g := g.call (GLCall.setUniform p "u_projMatrix" (UniformVal.mat4 w1.cameraPerspectiveMatrix))
    let g := g.call (GLCall.setUniform p "u_wirecolor" (UniformVal.rgb 0 0 0))
    let g := g.call (GLCall.draw p)
    (cv1, { w1 with gl := g })

/-- The member function `CameraView::drawImageView` (lines 65-83). -/
def CameraView.drawImageView (cv : CameraView) (w : World) : CameraView × World :=
  match cv.imageViewProgram with
  | none => (cv, w)
  | some p =>
    let g := w.gl.call (GLCall.enable "GL_BLEND")
    let g := g.call (GLCall.blendFunc "GL_SRC_ALPHA" "GL_ONE_MINUS_SRC_ALPHA")
    let g := g.call (GLCall.setUniform p "u_viewMatrix" (UniformVal.mat4 w.cameraViewMatrix))
    let g := g.call (GLCall.setUniform p "u_projMatrix" (UniformVal.mat4 w.cameraPerspectiveMatrix))
    let g := g.call (GLCall.setUniform p "u_transparency" (UniformVal.float cv.imageTransparency))
    let g := g.call (GLCall.draw p)
    (cv, { w with gl := g })

/-- The member function `CameraView::draw` (lines 36-43). -/
def CameraView.draw (cv : CameraView) (w : World) : CameraView × World :=
  if !cv.enabled then (cv, w)
  else
    let (cv1, w1) := cv.drawWireframe w
    cv1.drawImageView w1

/-- Reading through an `Image*`. An address that `new Image` never returned is not
dereferenced by a well-formed program; the model yields an empty image there. -/
def World.image (w : World) (im : Nat) : Image :=
  w.imageStore.getD im { name := "", data := [], width := 0, height := 0 }

/-- The member function `CameraView::setActiveImage` (lines 200-248). After a
successful `find`, `images[name]` is the value found. The two nested loops over
`tris` and over the indices of a triangle push one point and one texture
coordinate per index. The statement `delete imageViewProgram` is issued whenever the
pointer is not null, also when it holds a program that was released before (a
second `delete`, undefined behaviour in the source). -/
def CameraView.setActiveImage (cv : CameraView) (w : World) (name : String) :
    CameraView × World :=
  match cv.images.find name with
  | none => (cv, w.error ("No image with name " ++ name))
  | some im =>
    let cv1 := { cv with activeImage := some im }
    let g0 :=
      match cv1.imageViewProgram with
      | some old => w.gl.call (GLCall.delete old)
      | none => w.gl
    let (prog, g1) :=
      g0.newProgram ["PROJECTEDIMAGE_VERT_SHADER", "PROJECTEDIMAGE_FRAG_SHADER"] DrawMode.Triangles
    let cv2 := { cv1 with imageViewProgram := some prog }
    let g2 := g1.call
      (GLCall.setTexture2D prog "t_image" (w.image im).data (w.image im).width (w.image im).height true)
    let pts := cv2.getCameraPoints w
    let framePoints := pts.framePoints
    let frameCoords : Fin 4 → Vector2 := ![⟨1, 0⟩, ⟨0, 0⟩, ⟨0, 1⟩, ⟨1, 1⟩]
    let tris : List (List (Fin 4)) := [[0, 1, 3], [1, 2, 3]]
    let (positions, tCoords) :=
      tris.foldl
        (fun acc t =>
          t.foldl (fun acc ind => (acc.1 ++ [framePoints ind], acc.2 ++ [frameCoords ind])) acc)
        (([] : List Vector3), ([] : List Vector2))
    let g3 := g2.call (GLCall.setAttribute prog "a_position" (AttrData.vec3s positions))
    let g4 := g3.call (GLCall.setAttribute prog "a_tCoord" (AttrData.vec2s tCoords))
    (cv2, { w with gl := g4 })

/-- The member function `CameraView::addImage` (lines 184-198). -/
def CameraView.addImage (cv : CameraView) (w : World) (name : String) (I : List Nat)
    (width height : Nat) : CameraView × World :=
  if cv.images.find name ≠ none then
    (cv, w.error ("Image name " ++ name ++ " is alredy in use"))
  else
    let (i, w1) := w.newImage (Image.new name I width height)
    let cv1 := { cv with images := cv.images.assign name i }
    if cv1.images.size = 1 then cv1.setActiveImage w1 name
    else (cv1, w1)

/-- The member function `CameraView::clearActiveImage` (lines 250-255). -/
def CameraView.clearActiveImage (cv : CameraView) (w : World) : CameraView × World :=
  let w1 :=
    match cv.imageViewProgram with
    | some p => { w with gl := w.gl.call (GLCall.delete p) }
    | none => w
  ({ cv with activeImage := none }, w1)

/-! ## `PointCloudVectorQuantity` -/

/-- The enumeration `VectorType`: the source tells `AMBIENT` from every other
value. -/
inductive VectorType where
  | AMBIENT
  | STANDARD
deriving DecidableEq, Repr

/-- Modelled from the spec: the class `AffineRemapper<Vector3>`, which is not part of
the sources at hand; its `map` is a pure function on vectors. -/
structure AffineRemapper where
  map : Vector3 → Vector3

/-- Modelled from the spec: the colour manager of a structure, which is not part of
the sources at hand; its state is a counter. -/
abbrev ColorManager := Nat

/-- The members of `PointCloud` that `point_cloud_vector_quantity.cpp` reaches through
the pointer `parent`. -/
structure PointCloud where
  points : List Vector3
  colorManager : ColorManager

/-- Modelled from the spec: what the constructor of `PointCloudVectorQuantity` takes
from code that is not part of the sources at hand. The default-constructed mapper
(the identity), `AffineRemapper::setMinMax`, the constructor
`AffineRemapper<Vector3>(vectors, DataType::MAGNITUDE)` and
`ColorManager::getNextSubColor` are pure and report no error (degenerate data is
handled silently); `enabledInit` is the value the base class `PointCloudQuantity`
gives to `enabled`. -/
structure Externals where
  defaultMapper : AffineRemapper
  setMinMax : AffineRemapper → List Vector3 → AffineRemapper
  magnitudeMapper : List Vector3 → AffineRemapper
  getNextSubColor : ColorManager → String → (ℚ × ℚ × ℚ) × ColorManager
  enabledInit : Bool

/-- The data members of `PointCloudVectorQuantity`. The pointer `parent` is passed to
each member function as the point cloud it points to. -/
structure PointCloudVectorQuantity where
  name : String
  enabled : Bool
  vectorType : VectorType
  vectors : List Vector3
  mapper : AffineRemapper
  lengthMult : ℚ
  radiusMult : ℚ
  vectorColor : ℚ × ℚ × ℚ
  program : Option Handle

/-- The constructor `PointCloudVectorQuantity::PointCloudVectorQuantity`
(lines 17-43). Modelled from the spec: the member `program` starts as null (its
initialiser is in the header, which is not part of the sources at hand). -/
def PointCloudVectorQuantity.new (ext : Externals) (name : String) (vectors_ : List Vector3)
    (pointCloud_ : PointCloud) (vectorType_ : VectorType) (w : World) :
    PointCloudVectorQuantity × PointCloud × World :=
  let vectors := vectors_
  let w1 :=
    if vectors.length ≠ pointCloud_.points.length then
      w.error ("Point cloud vector quantity " ++ name ++ " does not have same number of values ("
        ++ toString vectors.length ++ ") as point cloud size ("
        ++ toString pointCloud_.points.length ++ ")")
    else w
  let mapper :=
    if vectorType_ = VectorType.AMBIENT then ext.setMinMax ext.defaultMapper vectors
    else ext.magnitudeMapper vectors
  let lengthMult : ℚ := if vectorType_ ≠ VectorType.AMBIENT then 2 / 100 else 1
  let radiusMult : ℚ := 5 / 10000
  let (vectorColor, cm) := ext.getNextSubColor pointCloud_.colorManager name
  ({ name := name, enabled := ext.enabledInit, vectorType := vectorType_, vectors := vectors,
     mapper := mapper, lengthMult := lengthMult, radiusMult := radiusMult,
     vectorColor := vectorColor, program := none },
   { pointCloud_ with colorManager := cm }, w1)

/-- The member function `PointCloudVectorQuantity::prepare` (lines 77-89). The loop
`for (Vector3 v : vectors)` pushes `mapper.map(v)` for each vector in turn. -/
def PointCloudVectorQuantity.prepare (q : PointCloudVectorQuantity) (parent : PointCloud)
    (w : World) : PointCloudVectorQuantity × World :=
  let (prog, g1) :=
    w.gl.newProgram ["PASSTHRU_VECTOR_VERT_SHADER", "VECTOR_GEOM_SHADER", "SHINY_VECTOR_FRAG_SHADER"]
      DrawMode.Points
  let mappedVectors : List Vector3 :=
    q.vectors.foldl (fun mappedVectors v => mappedVectors ++ [q.mapper.map v]) []
  let g2 := g1.call (GLCall.setAttribute prog "a_vector" (AttrData.vec3s mappedVectors))
  let g3 := g2.call (GLCall.setAttribute prog "a_position" (AttrData.vec3s parent.points))
  ({ q with program := some prog }, { w with gl := g3 })

/-- The member function `PointCloudVectorQuantity::draw` (lines 48-75). -/
def PointCloudVectorQuantity.draw (q : PointCloudVectorQuantity) (parent : PointCloud)
    (w : World) : PointCloudVectorQuantity × World :=
  if !q.enabled then (q, w)
  else
    let (q1, w1) := if q.program = none then q.prepare parent w else (q, w)
    match q1.program with
    | none => (q1, w1)
    | some p =>
      let g := w1.gl.call (GLCall.setUniform p "u_viewMatrix" (UniformVal.mat4 w1.cameraViewMatrix))
      let g := g.call (GLCall.setUniform p "u_projMatrix" (UniformVal.mat4 w1.cameraPerspectiveMatrix))
      let g := g.call (GLCall.setUniform p "u_eye" (UniformVal.vec3 w1.cameraWorldPosition))
      let g := g.call (GLCall.setUniform p "u_lightCenter" (UniformVal.vec3 w1.center))
      let g := g.call (GLCall.setUniform p "u_lightDist" (UniformVal.float (5 * w1.lengthScale)))
      let g := g.call (GLCall.setUniform p "u_radius" (UniformVal.float (q1.radiusMult * w1.lengthScale)))
      let g := g.call
        (GLCall.setUniform p "u_color" (UniformVal.rgb q1.vectorColor.1 q1.vectorColor.2.1 q1.vectorColor.2.2))
      let g :=
        if q1.vectorType = VectorType.AMBIENT then
          g.call (GLCall.setUniform p "u_lengthMult" (UniformVal.float 1))
        else
          g.call (GLCall.setUniform p "u_lengthMult" (UniformVal.float (q1.lengthMult * w1.lengthScale)))
      let g := g.call (GLCall.draw p)
      (q1, { w1 with gl := g })

/-- A run of frames: before each `draw()` the user interface sets the `enabled` flag
(the checkbox of `drawUI`); nothing else touches the quantity, in particular nothing
nulls its program. -/
def drawFrames (parent : PointCloud) (flags : List Bool)
    (s : PointCloudVectorQuantity × World) : PointCloudVectorQuantity × World :=
  flags.foldl (fun s b => PointCloudVectorQuantity.draw { s.1 with enabled := b } parent s.2) s

/-- The number of programs built in a log: each call of `prepare()` builds one, and
nothing else in `draw()` builds any. -/
def prepareCount (log : List GLCall) : Nat := log.countP GLCall.isCreate

/-! ## Sample objects -/

/-- A camera at the origin looking down the z axis, with focal lengths (1, 1). -/
def sampleParameters : CameraParameters :=
  { position := ⟨0, 0, 0⟩, lookDir := ⟨0, 0, 1⟩, upDir := ⟨0, 1, 0⟩, rightDir := ⟨1, 0, 0⟩,
    focalLengths := ⟨1, 1⟩ }

/-- A world with length scale 10, an untouched GPU layer, no image and no message. -/
def sampleWorld : World :=
  { lengthScale := 10, center := ⟨0, 0, 0⟩, cameraViewMatrix := [], cameraPerspectiveMatrix := [],
    cameraWorldPosition := ⟨0, 0, 0⟩, gl := { next := 0, log := [] }, imageStore := [],
    errors := [] }

/-- An enabled camera view with no image and no program. -/
def sampleView : CameraView :=
  { name := "cam", enabled := true, parameters := sampleParameters, images := [],
    activeImage := none, imageTransparency := 1, cameraSkeletonProgram := none,
    imageViewProgram := none }

/-- The line segments that `gl::DrawMode::Lines` draws from a vertex buffer: vertices
are taken two at a time (a last single vertex draws nothing). -/
def lineSegments {α : Type} : List α → List (α × α)
  | a :: b :: rest => (a, b) :: lineSegments rest
  | _ => []

/-- A view with one image `"A"` (at address 0) that is active and drawn by the
program 1; program 0 is the wireframe. -/
def sampleViewA : CameraView :=
  { sampleView with images := [("A", 0)], activeImage := some 0,
                    cameraSkeletonProgram := some 0, imageViewProgram := some 1 }

/-- The world of `sampleViewA`: the image `"A"` is a single black pixel. -/
def sampleWorldA : World :=
  { sampleWorld with
    imageStore := [Image.new "A" [0, 0, 0] 1 1]
    gl := { next := 2
            log := [GLCall.create 0 ["WIREFRAME_VERT_SHADER", "WIREFRAME_FRAG_SHADER"] DrawMode.Lines,
                    GLCall.create 1 ["PROJECTEDIMAGE_VERT_SHADER", "PROJECTEDIMAGE_FRAG_SHADER"]
                      DrawMode.Triangles] } }


/-- The calls that `PointCloudVectorQuantity::draw` makes through its program pointer
`p` once the program exists (lines 53-74): eight uniforms, then the draw call. -/
def PointCloudVectorQuantity.drawCalls (q : PointCloudVectorQuantity) (w : World) (p : Handle) :
    List GLCall :=
  [GLCall.setUniform p "u_viewMatrix" (UniformVal.mat4 w.cameraViewMatrix),
   GLCall.setUniform p "u_projMatrix" (UniformVal.mat4 w.cameraPerspectiveMatrix),
   GLCall.setUniform p "u_eye" (UniformVal.vec3 w.cameraWorldPosition),
   GLCall.setUniform p "u_lightCenter" (UniformVal.vec3 w.center),
   GLCall.setUniform p "u_lightDist" (UniformVal.float (5 * w.lengthScale)),
   GLCall.setUniform p "u_radius" (UniformVal.float (q.radiusMult * w.lengthScale)),
   GLCall.setUniform p "u_color" (UniformVal.rgb q.vectorColor.1 q.vectorColor.2.1 q.vectorColor.2.2),
   GLCall.setUniform p "u_lengthMult"
     (UniformVal.float (if q.vectorType = VectorType.AMBIENT then 1 else q.lengthMult * w.lengthScale)),
   GLCall.draw p]

/-- The calls that `PointCloudVectorQuantity::prepare` makes when it builds the
program `p` (lines 78-88). -/
def PointCloudVectorQuantity.prepareCalls (q : PointCloudVectorQuantity) (parent : PointCloud)
    (p : Handle) : List GLCall :=
  [GLCall.create p ["PASSTHRU_VECTOR_VERT_SHADER", "VECTOR_GEOM_SHADER", "SHINY_VECTOR_FRAG_SHADER"]
     DrawMode.Points,
   GLCall.setAttribute p "a_vector" (AttrData.vec3s (q.vectors.map q.mapper.map)),
   GLCall.setAttribute p "a_position" (AttrData.vec3s parent.points)]

/-- Externals for the samples: every mapper is the identity, the colour is black. -/
def sampleExternals : Externals :=
  { defaultMapper := ⟨fun v => v⟩, setMinMax := fun m _ => m, magnitudeMapper := fun _ => ⟨fun v => v⟩,
    getNextSubColor := fun cm _ => ((0, 0, 0), cm + 1), enabledInit := false }

/-- A point cloud of five points. -/
def sampleCloud : PointCloud :=
  { points := [⟨0, 0, 0⟩, ⟨1, 0, 0⟩, ⟨0, 1, 0⟩, ⟨0, 0, 1⟩, ⟨1, 1, 1⟩], colorManager := 0 }

/-- Three sample vectors. -/
def sampleVectors : List Vector3 := [⟨1, 0, 0⟩, ⟨0, 2, 0⟩, ⟨0, 0, 3⟩]

/-- A freshly constructed quantity on the sample cloud: three vectors, a mapper that
doubles each component, no program. -/
def sampleQuantity : PointCloudVectorQuantity :=
  { name := "v", enabled := false, vectorType := VectorType.STANDARD, vectors := sampleVectors,
    mapper := ⟨fun v => ⟨2 * v.x, 2 * v.y, 2 * v.z⟩⟩, lengthMult := 2 / 100, radiusMult := 5 / 10000,
    vectorColor := (0, 0, 0), program := none }

/-- The sample quantity with its checkbox ticked. -/
def sampleQuantityOn : PointCloudVectorQuantity := { sampleQuantity with enabled := true }

/-- The sample view with focal lengths (2, 2). -/
def sampleViewLong : CameraView :=
  { sampleView with parameters := { sampleParameters with focalLengths := ⟨2, 2⟩ } }

/-- The view `sampleViewA` after `clearActiveImage()`. -/
def sampleViewCleared : CameraView := (sampleViewA.clearActiveImage sampleWorldA).1

/-- The world of `sampleViewA` after `clearActiveImage()`. -/
def sampleWorldCleared : World := (sampleViewA.clearActiveImage sampleWorldA).2

/-! ## Frustum geometry -/

/-- The four corners that `getCameraPoints` returns, written out in coordinates. -/
theorem getCameraPoints_framePoints (cv : CameraView) (w : World) :
    (cv.getCameraPoints w).framePoints
      = ![toV (cv.parameters.position + CameraView.cameraDrawSize w * cv.parameters.lookDir
                + cv.parameters.upDir * cv.frameDrawHeight w
                + cv.parameters.rightDir * cv.frameDrawWidth w),
          toV (cv.parameters.position + CameraView.cameraDrawSize w * cv.parameters.lookDir
                + cv.parameters.upDir * cv.frameDrawHeight w
                - cv.parameters.rightDir * cv.frameDrawWidth w),
          toV (cv.parameters.position + CameraView.cameraDrawSize w * cv.parameters.lookDir
                - cv.parameters.upDir * cv.frameDrawHeight w
                - cv.parameters.rightDir * cv.frameDrawWidth w),
          toV (cv.parameters.position + CameraView.cameraDrawSize w * cv.parameters.lookDir
                - cv.parameters.upDir * cv.frameDrawHeight w
                + cv.parameters.rightDir * cv.frameDrawWidth w)] := rfl

theorem frameDraw_mono (a b L : ℚ) (hL : 0 < L) (ha : 0 < a) (hab : a < b) :
    1 / 2 / b * (L * (1 / 10)) < 1 / 2 / a * (L * (1 / 10)) := by
  have h1 : 1 / 2 / b < 1 / 2 / a := by
    apply div_lt_div_of_pos_left _ ha hab
    norm_num
  have h2 : 0 < L * (1 / 10) := by positivity
  exact mul_lt_mul_of_pos_right h1 h2

/-- C5: in coordinates, `getCameraPoints` returns the camera position as root, the
frame (look, up, right), and the corners upperRight, upperLeft, lowerLeft, lowerRight
of the quad `root + d*look ± h*up ± w*right` with `d = 0.1*L`, `w = 0.5/fx*d`,
`h = 0.5/fy*d`; both diagonals of the returned quad have their midpoint at
`root + 0.1L*look`, the returned corners differ by twice the half-extent along right
and up, each half-extent times its focal length is `0.05L`, so for focal lengths
(1, 1) both half-extents are `0.05L`, and for `L > 0` a larger positive focal length
gives a strictly smaller half-extent. -/
theorem getCameraPoints_frustum (cv : CameraView) (w : World)
    (hfx : cv.parameters.focalLengths.x ≠ 0) (hfy : cv.parameters.focalLengths.y ≠ 0) :
    let root := cv.parameters.position
    let look := cv.parameters.lookDir
    let up := cv.parameters.upDir
    let right := cv.parameters.rightDir
    let L := w.lengthScale
    let d : ℚ := 1 / 10 * L
    let wd : ℚ := 1 / 2 / cv.parameters.focalLengths.x * d
    let ht : ℚ := 1 / 2 / cv.parameters.focalLengths.y * d
    let f := (cv.getCameraPoints w).framePoints
    (cv.getCameraPoints w).rootV = ⟨root.x, root.y, root.z⟩
    ∧ (cv.getCameraPoints w).dirFrame
        = ![⟨look.x, look.y, look.z⟩, ⟨up.x, up.y, up.z⟩, ⟨right.x, right.y, right.z⟩]
    ∧ f = ![⟨root.x + d * look.x + ht * up.x + wd * right.x,
           root.y + d * look.y + ht * up.y + wd * right.y,
           root.z + d * look.z + ht * up.z + wd * right.z⟩,
          ⟨root.x + d * look.x + ht * up.x - wd * right.x,
           root.y + d * look.y + ht * up.y - wd * right.y,
           root.z + d * look.z + ht * up.z - wd * right.z⟩,
          ⟨root.x + d * look.x - ht * up.x - wd * right.x,
           root.y + d * look.y - ht * up.y - wd * right.y,
           root.z + d * look.z - ht * up.z - wd * right.z⟩,
          ⟨root.x + d * look.x - ht * up.x + wd * right.x,
           root.y + d * look.y - ht * up.y + wd * right.y,
           root.z + d * look.z - ht * up.z + wd * right.z⟩]
    ∧ (f 0).x + (f 2).x = 2 * (root.x + 1 / 10 * L * look.x)
    ∧ (f 0).y + (f 2).y = 2 * (root.y + 1 / 10 * L * look.y)
    ∧ (f 0).z + (f 2).z = 2 * (root.z + 1 / 10 * L * look.z)
    ∧ (f 1).x + (f 3).x = 2 * (root.x + 1 / 10 * L * look.x)
    ∧ (f 1).y + (f 3).y = 2 * (root.y + 1 / 10 * L * look.y)
    ∧ (f 1).z + (f 3).z = 2 * (root.z + 1 / 10 * L * look.z)
    ∧ (f 0).x - (f 1).x = 2 * cv.frameDrawWidth w * right.x
    ∧ (f 0).y - (f 1).y = 2 * cv.frameDrawWidth w * right.y
    ∧ (f 0).z - (f 1).z = 2 * cv.frameDrawWidth w * right.z
    ∧ (f 1).x - (f 2).x = 2 * cv.frameDrawHeight w * up.x
    ∧ (f 1).y - (f 2).y = 2 * cv.frameDrawHeight w * up.y
    ∧ (f 1).z - (f 2).z = 2 * cv.frameDrawHeight w * up.z
    ∧ cv.frameDrawWidth w = wd ∧ cv.frameDrawHeight w = ht
    ∧ cv.frameDrawWidth w * cv.parameters.focalLengths.x = 5 / 100 * L
    ∧ cv.frameDrawHeight w * cv.parameters.focalLengths.y = 5 / 100 * L
    ∧ (cv.parameters.focalLengths = ⟨1, 1⟩ →
        cv.frameDrawWidth w = 5 / 100 * L ∧ cv.frameDrawHeight w = 5 / 100 * L
        ∧ f = ![⟨root.x + 1 / 10 * L * look.x + 5 / 100 * L * up.x + 5 / 100 * L * right.x,
             root.y + 1 / 10 * L * look.y + 5 / 100 * L * up.y + 5 / 100 * L * right.y,
             root.z + 1 / 10 * L * look.z + 5 / 100 * L * up.z + 5 / 100 * L * right.z⟩,
            ⟨root.x + 1 / 10 * L * look.x + 5 / 100 * L * up.x - 5 / 100 * L * right.x,
             root.y + 1 / 10 * L * look.y + 5 / 100 * L * up.y - 5 / 100 * L * right.y,
             root.z + 1 / 10 * L * look.z + 5 / 100 * L * up.z - 5 / 100 * L * right.z⟩,
            ⟨root.x + 1 / 10 * L * look.x - 5 / 100 * L * up.x - 5 / 100 * L * right.x,
             root.y + 1 / 10 * L * look.y - 5 / 100 * L * up.y - 5 / 100 * L * right.y,
             root.z + 1 / 10 * L * look.z - 5 / 100 * L * up.z - 5 / 100 * L * right.z⟩,
            ⟨root.x + 1 / 10 * L * look.x - 5 / 100 * L * up.x + 5 / 100 * L * right.x,
             root.y + 1 / 10 * L * look.y - 5 / 100 * L * up.y + 5 / 100 * L * right.y,
             root.z + 1 / 10 * L * look.z - 5 / 100 * L * up.z + 5 / 100 * L * right.z⟩])
    ∧ (∀ cv2 : CameraView, 0 < L → 0 < cv.parameters.focalLengths.x →
        cv.parameters.focalLengths.x < cv2.parameters.focalLengths.x →
        cv2.frameDrawWidth w < cv.frameDrawWidth w)
    ∧ (∀ cv2 : CameraView, 0 < L → 0 < cv.parameters.focalLengths.y →
        cv.parameters.focalLengths.y < cv2.parameters.focalLengths.y →
        cv2.frameDrawHeight w < cv.frameDrawHeight w) := by
  intro root look up right L d wd ht f
  have hw : cv.frameDrawWidth w = wd := by
    simp only [CameraView.frameDrawWidth, CameraView.cameraDrawSize, wd, d, L]; ring
  have hh : cv.frameDrawHeight w = ht := by
    simp only [CameraView.frameDrawHeight, CameraView.cameraDrawSize, ht, d, L]; ring
  have hd : CameraView.cameraDrawSize w = d := by
    simp only [CameraView.cameraDrawSize, d, L]; ring
  have hf : f = ![
      ⟨root.x + d * look.x + up.x * ht + right.x * wd,
       root.y + d * look.y + up.y * ht + right.y * wd,
       root.z + d * look.z + up.z * ht + right.z * wd⟩,
      ⟨root.x + d * look.x + up.x * ht - right.x * wd,
       root.y + d * look.y + up.y * ht - right.y * wd,
       root.z + d * look.z + up.z * ht - right.z * wd⟩,
      ⟨root.x + d * look.x - up.x * ht - right.x * wd,
       root.y + d * look.y - up.y * ht - right.y * wd,
       root.z + d * look.z - up.z * ht - right.z * wd⟩,
      ⟨root.x + d * look.x - up.x * ht + right.x * wd,
       root.y + d * look.y - up.y * ht + right.y * wd,
       root.z + d * look.z - up.z * ht + right.z * wd⟩] := by
    show (cv.getCameraPoints w).framePoints = _
    rw [getCameraPoints_framePoints, hw, hh, hd]
    rfl
  have hwx : wd * cv.parameters.focalLengths.x = 5 / 100 * L := by
    simp only [wd, d]
    field_simp
    ring
  have hhy : ht * cv.parameters.focalLengths.y = 5 / 100 * L := by
    simp only [ht, d]
    field_simp
    ring
  have h0 := congrFun hf 0
  have h1 := congrFun hf 1
  have h2 := congrFun hf 2
  have h3 := congrFun hf 3
  simp only [Matrix.cons_val_zero, Matrix.cons_val_one, Matrix.head_cons, Matrix.cons_val_two,
    Matrix.tail_cons, Matrix.cons_val_three] at h0 h1 h2 h3
  refine ⟨rfl, rfl, ?_, ?_, ?_, ?_, ?_, ?_, ?_, ?_, ?_, ?_, ?_, ?_, ?_, hw, hh, ?_, ?_, ?_, ?_, ?_⟩
  · rw [hf]
    simp only [mul_comm]
  · rw [h0, h2]; ring
  · rw [h0, h2]; ring
  · rw [h0, h2]; ring
  · rw [h1, h3]; ring
  · rw [h1, h3]; ring
  · rw [h1, h3]; ring
  · rw [h0, h1, hw]; ring
  · rw [h0, h1, hw]; ring
  · rw [h0, h1, hw]; ring
  · rw [h1, h2, hh]; ring
  · rw [h1, h2, hh]; ring
  · rw [h1, h2, hh]; ring
  · rw [hw]; exact hwx
  · rw [hh]; exact hhy
  · intro hfoc
    have hx1 : cv.parameters.focalLengths.x = 1 := by rw [hfoc]
    have hy1 : cv.parameters.focalLengths.y = 1 := by rw [hfoc]
    have hwd : wd = 5 / 100 * L := by simpa [hx1] using hwx
    have hht : ht = 5 / 100 * L := by simpa [hy1] using hhy
    refine ⟨hw.trans hwd, hh.trans hht, ?_⟩
    rw [hf, hwd, hht]
    simp only [d, mul_comm]
  · intro cv2 hL ha hab
    exact frameDraw_mono _ _ _ hL ha hab
  · intro cv2 hL ha hab
    exact frameDraw_mono _ _ _ hL ha hab

/-- Witness of `getCameraPoints_frustum`: the sample camera, focal lengths (1, 1), in
a scene of length scale 10, and the same camera with focal lengths (2, 2). -/
theorem getCameraPoints_frustum_witness :
    sampleView.parameters.focalLengths.x ≠ 0 ∧ sampleView.parameters.focalLengths.y ≠ 0 ∧
    (
    let root := sampleView.parameters.position
    let look := sampleView.parameters.lookDir
    let up := sampleView.parameters.upDir
    let right := sampleView.parameters.rightDir
    let L := sampleWorld.lengthScale
    let d : ℚ := 1 / 10 * L
    let wd : ℚ := 1 / 2 / sampleView.parameters.focalLengths.x * d
    let ht : ℚ := 1 / 2 / sampleView.parameters.focalLengths.y * d
    let f := (sampleView.getCameraPoints sampleWorld).framePoints
    (sampleView.getCameraPoints sampleWorld).rootV = ⟨root.x, root.y, root.z⟩
    ∧ (sampleView.getCameraPoints sampleWorld).dirFrame
        = ![⟨look.x, look.y, look.z⟩, ⟨up.x, up.y, up.z⟩, ⟨right.x, right.y, right.z⟩]
    ∧ f = ![⟨root.x + d * look.x + ht * up.x + wd * right.x,
           root.y + d * look.y + ht * up.y + wd * right.y,
           root.z + d * look.z + ht * up.z + wd * right.z⟩,
          ⟨root.x + d * look.x + ht * up.x - wd * right.x,
           root.y + d * look.y + ht * up.y - wd * right.y,
           root.z + d * look.z + ht * up.z - wd * right.z⟩,
          ⟨root.x + d * look.x - ht * up.x - wd * right.x,
           root.y + d * look.y - ht * up.y - wd * right.y,
           root.z + d * look.z - ht * up.z - wd * right.z⟩,
          ⟨root.x + d * look.x - ht * up.x + wd * right.x,
           root.y + d * look.y - ht * up.y + wd * right.y,
           root.z + d * look.z - ht * up.z + wd * right.z⟩]
    ∧ (f 0).x + (f 2).x = 2 * (root.x + 1 / 10 * L * look.x)
    ∧ (f 0).y + (f 2).y = 2 * (root.y + 1 / 10 * L * look.y)
    ∧ (f 0).z + (f 2).z = 2 * (root.z + 1 / 10 * L * look.z)
    ∧ (f 1).x + (f 3).x = 2 * (root.x + 1 / 10 * L * look.x)
    ∧ (f 1).y + (f 3).y = 2 * (root.y + 1 / 10 * L * look.y)
    ∧ (f 1).z + (f 3).z = 2 * (root.z + 1 / 10 * L * look.z)
    ∧ (f 0).x - (f 1).x = 2 * sampleView.frameDrawWidth sampleWorld * right.x
    ∧ (f 0).y - (f 1).y = 2 * sampleView.frameDrawWidth sampleWorld * right.y
    ∧ (f 0).z - (f 1).z = 2 * sampleView.frameDrawWidth sampleWorld * right.z
    ∧ (f 1).x - (f 2).x = 2 * sampleView.frameDrawHeight sampleWorld * up.x
    ∧ (f 1).y - (f 2).y = 2 * sampleView.frameDrawHeight sampleWorld * up.y
    ∧ (f 1).z - (f 2).z = 2 * sampleView.frameDrawHeight sampleWorld * up.z
    ∧ sampleView.frameDrawWidth sampleWorld = wd ∧ sampleView.frameDrawHeight sampleWorld = ht
    ∧ sampleView.frameDrawWidth sampleWorld * sampleView.parameters.focalLengths.x = 5 / 100 * L
    ∧ sampleView.frameDrawHeight sampleWorld * sampleView.parameters.focalLengths.y = 5 / 100 * L
    ∧ (sampleView.parameters.focalLengths = ⟨1, 1⟩ →
        sampleView.frameDrawWidth sampleWorld = 5 / 100 * L ∧ sampleView.frameDrawHeight sampleWorld = 5 / 100 * L
        ∧ f = ![⟨root.x + 1 / 10 * L * look.x + 5 / 100 * L * up.x + 5 / 100 * L * right.x,
             root.y + 1 / 10 * L * look.y + 5 / 100 * L * up.y + 5 / 100 * L * right.y,
             root.z + 1 / 10 * L * look.z + 5 / 100 * L * up.z + 5 / 100 * L * right.z⟩,
            ⟨root.x + 1 / 10 * L * look.x + 5 / 100 * L * up.x - 5 / 100 * L * right.x,
             root.y + 1 / 10 * L * look.y + 5 / 100 * L * up.y - 5 / 100 * L * right.y,
             root.z + 1 / 10 * L * look.z + 5 / 100 * L * up.z - 5 / 100 * L * right.z⟩,
            ⟨root.x + 1 / 10 * L * look.x - 5 / 100 * L * up.x - 5 / 100 * L * right.x,
             root.y + 1 / 10 * L * look.y - 5 / 100 * L * up.y - 5 / 100 * L * right.y,
             root.z + 1 / 10 * L * look.z - 5 / 100 * L * up.z - 5 / 100 * L * right.z⟩,
            ⟨root.x + 1 / 10 * L * look.x - 5 / 100 * L * up.x + 5 / 100 * L * right.x,
             root.y + 1 / 10 * L * look.y - 5 / 100 * L * up.y + 5 / 100 * L * right.y,
             root.z + 1 / 10 * L * look.z - 5 / 100 * L * up.z + 5 / 100 * L * right.z⟩])
    ∧ (∀ cv2 : CameraView, 0 < L → 0 < sampleView.parameters.focalLengths.x →
        sampleView.parameters.focalLengths.x < cv2.parameters.focalLengths.x →
        cv2.frameDrawWidth sampleWorld < sampleView.frameDrawWidth sampleWorld)
    ∧ (∀ cv2 : CameraView, 0 < L → 0 < sampleView.parameters.focalLengths.y →
        sampleView.parameters.focalLengths.y < cv2.parameters.focalLengths.y →
        cv2.frameDrawHeight sampleWorld < sampleView.frameDrawHeight sampleWorld))
    ∧ (sampleView.parameters.focalLengths = ⟨1, 1⟩ ∧ 0 < sampleWorld.lengthScale
      ∧ 0 < sampleView.parameters.focalLengths.x
      ∧ sampleView.parameters.focalLengths.x < sampleViewLong.parameters.focalLengths.x)
    ∧ sampleView.frameDrawWidth sampleWorld = 5 / 100 * sampleWorld.lengthScale
    ∧ sampleViewLong.frameDrawWidth sampleWorld < sampleView.frameDrawWidth sampleWorld :=
  have hx : sampleView.parameters.focalLengths.x ≠ 0 := by
    simp [sampleView, sampleParameters]
  have hy : sampleView.parameters.focalLengths.y ≠ 0 := by
    simp [sampleView, sampleParameters]
  have hL : 0 < sampleWorld.lengthScale := by norm_num [sampleWorld]
  have h0 : 0 < sampleView.parameters.focalLengths.x := by
    norm_num [sampleView, sampleParameters]
  have hlt : sampleView.parameters.focalLengths.x < sampleViewLong.parameters.focalLengths.x := by
    norm_num [sampleView, sampleParameters, sampleViewLong]
  have h := getCameraPoints_frustum sampleView sampleWorld hx hy
  ⟨hx, hy, h, ⟨rfl, hL, h0, hlt⟩,
   (h.2.2.2.2.2.2.2.2.2.2.2.2.2.2.2.2.2.2.2.1 rfl).1,
   h.2.2.2.2.2.2.2.2.2.2.2.2.2.2.2.2.2.2.2.2.1 sampleViewLong hL h0 hlt⟩

/-! ## The wireframe and the image quad -/

/-- C8: `prepareCameraSkeleton` builds one program in line mode and uploads as
`a_position` exactly 16 vertices, that is 8 segments: for each corner index `i` the
strut from the root to corner `i`, then the edge from corner `i` to corner
`(i + 1) mod 4`. -/
theorem prepareCameraSkeleton_wireframe (cv : CameraView) (w : World) :
    let root := (cv.getCameraPoints w).rootV
    let f := (cv.getCameraPoints w).framePoints
    let positions : List Vector3 :=
      [root, f 0, f 0, f 1, root, f 1, f 1, f 2, root, f 2, f 2, f 3, root, f 3, f 3, f 0]
    (cv.prepareCameraSkeleton w).1 = { cv with cameraSkeletonProgram := some w.gl.next }
    ∧ (cv.prepareCameraSkeleton w).2.gl.log = w.gl.log ++
        [GLCall.create w.gl.next ["WIREFRAME_VERT_SHADER", "WIREFRAME_FRAG_SHADER"] DrawMode.Lines,
         GLCall.setAttribute w.gl.next "a_position" (AttrData.vec3s positions)]
    ∧ uploaded (cv.prepareCameraSkeleton w).2.gl.log w.gl.next "a_position"
        = some (AttrData.vec3s positions)
    ∧ positions.length = 16
    ∧ lineSegments positions
        = [(root, f 0), (f 0, f 1), (root, f 1), (f 1, f 2),
           (root, f 2), (f 2, f 3), (root, f 3), (f 3, f 0)]
    ∧ lineSegments positions
        = (List.finRange 4).flatMap (fun i => [(root, f i), (f i, f (i + 1))]) := by
  have h4 : List.finRange 4 = [0, 1, 2, 3] := by decide
  have hlog : (cv.prepareCameraSkeleton w).2.gl.log = w.gl.log ++
      [GLCall.create w.gl.next ["WIREFRAME_VERT_SHADER", "WIREFRAME_FRAG_SHADER"] DrawMode.Lines,
       GLCall.setAttribute w.gl.next "a_position" (AttrData.vec3s
        [(cv.getCameraPoints w).rootV, (cv.getCameraPoints w).framePoints 0,
         (cv.getCameraPoints w).framePoints 0, (cv.getCameraPoints w).framePoints 1,
         (cv.getCameraPoints w).rootV, (cv.getCameraPoints w).framePoints 1,
         (cv.getCameraPoints w).framePoints 1, (cv.getCameraPoints w).framePoints 2,
         (cv.getCameraPoints w).rootV, (cv.getCameraPoints w).framePoints 2,
         (cv.getCameraPoints w).framePoints 2, (cv.getCameraPoints w).framePoints 3,
         (cv.getCameraPoints w).rootV, (cv.getCameraPoints w).framePoints 3,
         (cv.getCameraPoints w).framePoints 3, (cv.getCameraPoints w).framePoints 0])] := by
    simp only [CameraView.prepareCameraSkeleton, GLState.newProgram, GLState.call, h4,
      List.foldl_cons, List.foldl_nil, List.append_assoc, List.nil_append, List.cons_append,
      List.singleton_append]
    rfl
  refine ⟨rfl, hlog, ?_, rfl, rfl, ?_⟩
  · rw [hlog]
    simp [uploaded, List.foldl_append]
  · rw [h4]
    rfl

/-- The frustum depends on the camera parameters only. -/
theorem getCameraPoints_update (cv : CameraView) (w : World) (a : Option Nat) (p : Option Handle) :
    ({ cv with activeImage := a, imageViewProgram := p } : CameraView).getCameraPoints w
      = cv.getCameraPoints w := rfl

theorem setActiveImage_log (cv : CameraView) (w : World) (name : String) (im : Nat)
    (hfind : cv.images.find name = some im) :
    (cv.setActiveImage w name).2.gl.log
      = w.gl.log
        ++ (match cv.imageViewProgram with
            | some old => [GLCall.delete old]
            | none => [])
        ++ [GLCall.create w.gl.next ["PROJECTEDIMAGE_VERT_SHADER", "PROJECTEDIMAGE_FRAG_SHADER"]
              DrawMode.Triangles,
            GLCall.setTexture2D w.gl.next "t_image" (w.image im).data (w.image im).width
              (w.image im).height true,
            GLCall.setAttribute w.gl.next "a_position" (AttrData.vec3s
              [(cv.getCameraPoints w).framePoints 0, (cv.getCameraPoints w).framePoints 1,
               (cv.getCameraPoints w).framePoints 3, (cv.getCameraPoints w).framePoints 1,
               (cv.getCameraPoints w).framePoints 2, (cv.getCameraPoints w).framePoints 3]),
            GLCall.setAttribute w.gl.next "a_tCoord" (AttrData.vec2s
              [⟨1, 0⟩, ⟨0, 0⟩, ⟨1, 1⟩, ⟨0, 0⟩, ⟨0, 1⟩, ⟨1, 1⟩])] := by
  cases hp : cv.imageViewProgram <;>
    simp [CameraView.setActiveImage, hfind, hp, GLState.newProgram, GLState.call,
      getCameraPoints_update]

theorem count_delete_of_not_released (log : List GLCall) (h : Handle)
    (hlive : released log h = false) : log.count (GLCall.delete h) = 0 := by
  rw [List.count_eq_zero]
  intro hmem
  have : released log h = true := by
    simp only [released, List.any_eq_true]
    exact ⟨_, hmem, by simp⟩
  rw [hlive] at this
  exact Bool.noConfusion this

theorem count_delete_of_released (log : List GLCall) (h : Handle)
    (hrel : released log h = true) : 1 ≤ log.count (GLCall.delete h) := by
  simp only [released, List.any_eq_true] at hrel
  obtain ⟨c, hc, hceq⟩ := hrel
  have hcd : c = GLCall.delete h := by simpa using hceq
  subst hcd
  exact List.count_pos_iff.mpr hc

/-- C7: for a name present in the image map, on a view whose image program pointer
is null or points to a program that has not been released, `setActiveImage` makes
the image stored under the name the active image, releases the previous image
program exactly once if the pointer was not null, and builds a new program in
triangle mode whose `a_position` buffer is `[f0, f1, f3, f1, f2, f3]` and whose
`a_tCoord` buffer is `[(1,0), (0,0), (1,1), (0,0), (0,1), (1,1)]`: both of length 6,
corner `f i` always paired with the texture coordinate `uv i`. On a view whose
pointer holds a program that was already released (the state `clearActiveImage`
leaves), `setActiveImage` first issues `delete` on that released program again, so
the program is deleted twice; nothing is stated of what follows that call. -/
theorem setActiveImage_quad (cv : CameraView) (w : World) (name : String) (im : Nat)
    (hfind : cv.images.find name = some im) :
    let f := (cv.getCameraPoints w).framePoints
    let uv : Fin 4 → Vector2 := ![⟨1, 0⟩, ⟨0, 0⟩, ⟨0, 1⟩, ⟨1, 1⟩]
    let positions : List Vector3 := [f 0, f 1, f 3, f 1, f 2, f 3]
    let tCoords : List Vector2 := [⟨1, 0⟩, ⟨0, 0⟩, ⟨1, 1⟩, ⟨0, 0⟩, ⟨0, 1⟩, ⟨1, 1⟩]
    ((∀ old, cv.imageViewProgram = some old → released w.gl.log old = false) →
      ((cv.setActiveImage w name).1
          = { cv with activeImage := some im, imageViewProgram := some w.gl.next }
      ∧ (cv.setActiveImage w name).2.gl.log
          = w.gl.log
            ++ (match cv.imageViewProgram with
                | some old => [GLCall.delete old]
                | none => [])
            ++ [GLCall.create w.gl.next ["PROJECTEDIMAGE_VERT_SHADER", "PROJECTEDIMAGE_FRAG_SHADER"]
                  DrawMode.Triangles,
                GLCall.setTexture2D w.gl.next "t_image" (w.image im).data (w.image im).width
                  (w.image im).height true,
                GLCall.setAttribute w.gl.next "a_position" (AttrData.vec3s positions),
                GLCall.setAttribute w.gl.next "a_tCoord" (AttrData.vec2s tCoords)]
      ∧ (∀ old, cv.imageViewProgram = some old →
          released (cv.setActiveImage w name).2.gl.log old = true
          ∧ (cv.setActiveImage w name).2.gl.log.count (GLCall.delete old) = 1)
      ∧ uploaded (cv.setActiveImage w name).2.gl.log w.gl.next "a_position"
          = some (AttrData.vec3s positions)
      ∧ uploaded (cv.setActiveImage w name).2.gl.log w.gl.next "a_tCoord"
          = some (AttrData.vec2s tCoords)
      ∧ positions.length = 6 ∧ tCoords.length = 6
      ∧ List.zip positions tCoords
          = ([0, 1, 3, 1, 2, 3] : List (Fin 4)).map (fun i => (f i, uv i))
      ∧ (cv.setActiveImage w name).2.errors = w.errors
      ∧ (cv.setActiveImage w name).2.imageStore = w.imageStore))
    ∧ (∀ old, cv.imageViewProgram = some old → released w.gl.log old = true →
      (List.IsPrefix (w.gl.log ++ [GLCall.delete old]) (cv.setActiveImage w name).2.gl.log
      ∧ 2 ≤ (cv.setActiveImage w name).2.gl.log.count (GLCall.delete old))) := by
  intro f uv positions tCoords
  have hlog := setActiveImage_log cv w name im hfind
  refine ⟨?_, ?_⟩
  · intro hlive
    refine ⟨?_, hlog, ?_, ?_, ?_, rfl, rfl, rfl, ?_, ?_⟩
    · cases hp : cv.imageViewProgram <;>
        simp [CameraView.setActiveImage, hfind, hp, GLState.newProgram, GLState.call]
    · intro old hold
      have h0 := count_delete_of_not_released _ _ (hlive old hold)
      rw [hlog, hold]
      refine ⟨by simp [released], ?_⟩
      simp [List.count_append, h0, List.count_cons]
    · rw [hlog]
      simp [uploaded, List.foldl_append, positions, f]
    · rw [hlog]
      simp [uploaded, List.foldl_append, tCoords]
    · cases hp : cv.imageViewProgram <;>
        simp [CameraView.setActiveImage, hfind, hp, GLState.newProgram, GLState.call]
    · cases hp : cv.imageViewProgram <;>
        simp [CameraView.setActiveImage, hfind, hp, GLState.newProgram, GLState.call]
  · intro old hold hrel
    have h1 := count_delete_of_released _ _ hrel
    rw [hlog, hold]
    refine ⟨?_, ?_⟩
    · exact List.prefix_append _ _
    · have hself : List.count (GLCall.delete old) [GLCall.delete old] = 1 := by simp
      rw [List.count_append, List.count_append, hself]
      omega

/-- Witness of `setActiveImage_quad`: activating `"A"` again on the view that shows it
through the live program 1, and activating `"A"` after `clearActiveImage` has
released program 1 and left the pointer in place. -/
theorem setActiveImage_quad_witness :
    sampleViewA.images.find "A" = some 0
    ∧ (∀ old, sampleViewA.imageViewProgram = some old → released sampleWorldA.gl.log old = false)
    ∧ (
    let f := (sampleViewA.getCameraPoints sampleWorldA).framePoints
    let uv : Fin 4 → Vector2 := ![⟨1, 0⟩, ⟨0, 0⟩, ⟨0, 1⟩, ⟨1, 1⟩]
    let positions : List Vector3 := [f 0, f 1, f 3, f 1, f 2, f 3]
    let tCoords : List Vector2 := [⟨1, 0⟩, ⟨0, 0⟩, ⟨1, 1⟩, ⟨0, 0⟩, ⟨0, 1⟩, ⟨1, 1⟩]
    ((sampleViewA.setActiveImage sampleWorldA "A").1
        = { sampleViewA with activeImage := some 0, imageViewProgram := some sampleWorldA.gl.next }
    ∧ (sampleViewA.setActiveImage sampleWorldA "A").2.gl.log
        = sampleWorldA.gl.log
          ++ (match sampleViewA.imageViewProgram with
              | some old => [GLCall.delete old]
              | none => [])
          ++ [GLCall.create sampleWorldA.gl.next ["PROJECTEDIMAGE_VERT_SHADER", "PROJECTEDIMAGE_FRAG_SHADER"]
                DrawMode.Triangles,
              GLCall.setTexture2D sampleWorldA.gl.next "t_image" (sampleWorldA.image 0).data (sampleWorldA.image 0).width
                (sampleWorldA.image 0).height true,
              GLCall.setAttribute sampleWorldA.gl.next "a_position" (AttrData.vec3s positions),
              GLCall.setAttribute sampleWorldA.gl.next "a_tCoord" (AttrData.vec2s tCoords)]
    ∧ (∀ old, sampleViewA.imageViewProgram = some old →
        released (sampleViewA.setActiveImage sampleWorldA "A").2.gl.log old = true
        ∧ (sampleViewA.setActiveImage sampleWorldA "A").2.gl.log.count (GLCall.delete old) = 1)
    ∧ uploaded (sampleViewA.setActiveImage sampleWorldA "A").2.gl.log sampleWorldA.gl.next "a_position"
        = some (AttrData.vec3s positions)
    ∧ uploaded (sampleViewA.setActiveImage sampleWorldA "A").2.gl.log sampleWorldA.gl.next "a_tCoord"
        = some (AttrData.vec2s tCoords)
    ∧ positions.length = 6 ∧ tCoords.length = 6
    ∧ List.zip positions tCoords
        = ([0, 1, 3, 1, 2, 3] : List (Fin 4)).map (fun i => (f i, uv i))
    ∧ (sampleViewA.setActiveImage sampleWorldA "A").2.errors = sampleWorldA.errors
    ∧ (sampleViewA.setActiveImage sampleWorldA "A").2.imageStore = sampleWorldA.imageStore))
    ∧ sampleViewCleared.images.find "A" = some 0
    ∧ sampleViewCleared.imageViewProgram = some 1
    ∧ released sampleWorldCleared.gl.log 1 = true
    ∧ (
      (List.IsPrefix (sampleWorldCleared.gl.log ++ [GLCall.delete 1]) (sampleViewCleared.setActiveImage sampleWorldCleared "A").2.gl.log
      ∧ 2 ≤ (sampleViewCleared.setActiveImage sampleWorldCleared "A").2.gl.log.count (GLCall.delete 1))) :=
  have hlive : ∀ old, sampleViewA.imageViewProgram = some old →
      released sampleWorldA.gl.log old = false := by
    intro old hold
    have h1 : old = 1 := (Option.some.inj hold).symm
    subst h1
    decide
  have hrel : released sampleWorldCleared.gl.log 1 = true := by decide
  ⟨by decide, hlive,
   (setActiveImage_quad sampleViewA sampleWorldA "A" 0 (by decide)).1 hlive,
   by decide, rfl, hrel,
   (setActiveImage_quad sampleViewCleared sampleWorldCleared "A" 0 (by decide)).2 1 rfl hrel⟩

/-! ## The image map -/

theorem StdMap.find_assign_self {V : Type} (m : StdMap V) (k : String) (v : V) :
    (m.assign k v).find k = some v := by
  induction m with
  | nil => simp [StdMap.assign, StdMap.find]
  | cons e rest ih =>
    obtain ⟨k', v'⟩ := e
    by_cases h1 : k = k'
    · simp [StdMap.assign, StdMap.find, h1]
    · by_cases h2 : k < k'
      · simp [StdMap.assign, StdMap.find, h1, h2]
      · simp [StdMap.assign, StdMap.find, h1, h2, ih]

theorem StdMap.find_assign_ne {V : Type} (m : StdMap V) (k k2 : String) (v : V) (hne : k2 ≠ k) :
    (m.assign k v).find k2 = m.find k2 := by
  induction m with
  | nil => simp [StdMap.assign, StdMap.find, hne]
  | cons e rest ih =>
    obtain ⟨k', v'⟩ := e
    by_cases h1 : k = k'
    · subst h1
      simp [StdMap.assign, StdMap.find, hne]
    · by_cases h2 : k < k'
      · simp [StdMap.assign, StdMap.find, h1, h2, hne]
      · by_cases h3 : k2 = k'
        · simp [StdMap.assign, StdMap.find, h1, h2, h3]
        · simp [StdMap.assign, StdMap.find, h1, h2, h3, ih]

theorem StdMap.size_assign_absent {V : Type} (m : StdMap V) (k : String) (v : V)
    (habs : m.find k = none) : (m.assign k v).size = m.size + 1 := by
  induction m with
  | nil => simp [StdMap.assign, StdMap.size]
  | cons e rest ih =>
    obtain ⟨k', v'⟩ := e
    by_cases h1 : k = k'
    · simp [StdMap.find, h1] at habs
    · have hrest : StdMap.find rest k = none := by simpa [StdMap.find, h1] using habs
      by_cases h2 : k < k'
      · simp [StdMap.assign, StdMap.size, h1, h2]
      · have := ih hrest
        simp only [StdMap.size] at this
        simp [StdMap.assign, StdMap.size, h1, h2, this]

/-- C3: adding an image under a name that is already present reports exactly one
error and changes nothing else: the view (image map, active image, programs), the
stored images and the GPU layer are as before, whatever pixels and sizes are
passed. -/
theorem addImage_duplicate (cv : CameraView) (w : World) (name : String) (I : List Nat)
    (width height : Nat) (hdup : cv.images.find name ≠ none) :
    (cv.addImage w name I width height).1 = cv
    ∧ (cv.addImage w name I width height).2
        = { w with errors := w.errors ++ ["Image name " ++ name ++ " is alredy in use"] }
    ∧ (cv.addImage w name I width height).1.images.find name = cv.images.find name
    ∧ (∀ im, (cv.addImage w name I width height).2.image im = w.image im)
    ∧ (cv.addImage w name I width height).2.gl = w.gl
    ∧ (cv.addImage w name I width height).2.errors.length = w.errors.length + 1 := by
  have h : cv.addImage w name I width height
      = (cv, w.error ("Image name " ++ name ++ " is alredy in use")) := by
    simp [CameraView.addImage, hdup]
  rw [h]
  simp [World.error, World.image]

/-- Witness of `addImage_duplicate`: a second `"A"`, with other pixels and sizes, on
the view that already holds `"A"`. -/
theorem addImage_duplicate_witness :
    sampleViewA.images.find "A" ≠ none ∧
    (sampleViewA.addImage sampleWorldA "A" [255, 255, 255, 9, 9, 9] 2 1).1 = sampleViewA
    ∧ (sampleViewA.addImage sampleWorldA "A" [255, 255, 255, 9, 9, 9] 2 1).2
        = { sampleWorldA with
            errors := sampleWorldA.errors ++ ["Image name " ++ "A" ++ " is alredy in use"] }
    ∧ (sampleViewA.addImage sampleWorldA "A" [255, 255, 255, 9, 9, 9] 2 1).1.images.find "A"
        = sampleViewA.images.find "A"
    ∧ (∀ im, (sampleViewA.addImage sampleWorldA "A" [255, 255, 255, 9, 9, 9] 2 1).2.image im
        = sampleWorldA.image im)
    ∧ (sampleViewA.addImage sampleWorldA "A" [255, 255, 255, 9, 9, 9] 2 1).2.gl = sampleWorldA.gl
    ∧ (sampleViewA.addImage sampleWorldA "A" [255, 255, 255, 9, 9, 9] 2 1).2.errors.length
        = sampleWorldA.errors.length + 1 :=
  ⟨by decide, addImage_duplicate sampleViewA sampleWorldA "A" [255, 255, 255, 9, 9, 9] 2 1 (by decide)⟩

/-- C4: activating a name that is not in the image map reports an error and does
nothing else: the view is unchanged (the map gains no entry, the active image and
the programs stay), and no call reaches the GPU layer. -/
theorem setActiveImage_missing (cv : CameraView) (w : World) (name : String)
    (hmiss : cv.images.find name = none) :
    (cv.setActiveImage w name).1 = cv
    ∧ (cv.setActiveImage w name).2
        = { w with errors := w.errors ++ ["No image with name " ++ name] }
    ∧ (cv.setActiveImage w name).1.images.find name = none
    ∧ (cv.setActiveImage w name).2.gl = w.gl
    ∧ (cv.setActiveImage w name).2.errors.length = w.errors.length + 1 := by
  have h : cv.setActiveImage w name = (cv, w.error ("No image with name " ++ name)) := by
    simp [CameraView.setActiveImage, hmiss]
  rw [h]
  simp [World.error, hmiss]

/-- Witness of `setActiveImage_missing`: activating `"B"` on the view that holds only
`"A"`. -/
theorem setActiveImage_missing_witness :
    sampleViewA.images.find "B" = none ∧
    (sampleViewA.setActiveImage sampleWorldA "B").1 = sampleViewA
    ∧ (sampleViewA.setActiveImage sampleWorldA "B").2
        = { sampleWorldA with errors := sampleWorldA.errors ++ ["No image with name " ++ "B"] }
    ∧ (sampleViewA.setActiveImage sampleWorldA "B").1.images.find "B" = none
    ∧ (sampleViewA.setActiveImage sampleWorldA "B").2.gl = sampleWorldA.gl
    ∧ (sampleViewA.setActiveImage sampleWorldA "B").2.errors.length
        = sampleWorldA.errors.length + 1 :=
  ⟨by decide, setActiveImage_missing sampleViewA sampleWorldA "B" (by decide)⟩

theorem setActiveImage_quad_aux (cv : CameraView) (w : World) (name : String) (im : Nat)
    (hfind : cv.images.find name = some im) :
    (cv.setActiveImage w name).1
        = { cv with activeImage := some im, imageViewProgram := some w.gl.next }
    ∧ (cv.setActiveImage w name).2.imageStore = w.imageStore
    ∧ (cv.setActiveImage w name).2.errors = w.errors := by
  cases hp : cv.imageViewProgram <;>
    simp [CameraView.setActiveImage, hfind, hp, GLState.newProgram, GLState.call]

theorem World.image_newImage (w : World) (im : Image) :
    (w.newImage im).2.image w.imageStore.length = im := by
  simp [World.newImage, World.image, List.getD_eq_getElem?_getD]

theorem World.image_newImage_old (w : World) (im : Image) (p : Nat)
    (hp : p < w.imageStore.length) : (w.newImage im).2.image p = w.image p := by
  simp [World.newImage, World.image, List.getD_eq_getElem?_getD, List.getElem?_append_left hp]

theorem addImage_absent (cv : CameraView) (w : World) (n : String) (I : List Nat)
    (width height : Nat) (habs : cv.images.find n = none) (hne : cv.images ≠ []) :
    cv.addImage w n I width height
      = ({ cv with images := cv.images.assign n w.imageStore.length },
         (w.newImage (Image.new n I width height)).2) := by
  have hsize : (cv.images.assign n w.imageStore.length).size ≠ 1 := by
    rw [StdMap.size_assign_absent _ _ _ habs]
    cases hm : cv.images with
    | nil => exact absurd hm hne
    | cons e rest => simp [StdMap.size]
  simp [CameraView.addImage, habs, World.newImage, hsize]

theorem addImage_empty (cv : CameraView) (w : World) (n : String) (I : List Nat)
    (width height : Nat) (hemp : cv.images = []) :
    cv.addImage w n I width height
      = ({ cv with images := [(n, w.imageStore.length)] } : CameraView).setActiveImage
          (w.newImage (Image.new n I width height)).2 n := by
  simp [CameraView.addImage, hemp, StdMap.find, StdMap.assign, StdMap.size, World.newImage]

/-- C2: on a view with an empty image map `addImage` stores the image and makes it
the active image; on a view with a non-empty map, for a name not yet present, it
stores the image and leaves the active image and the image program alone; so adding
`n` and then another name `b` to an empty view leaves `n` active and both in the
map. -/
theorem addImage_first_active (cv : CameraView) (w : World) (n : String) (I : List Nat)
    (width height : Nat) :
    (cv.images = [] →
      (cv.addImage w n I width height).1.images = [(n, w.imageStore.length)]
      ∧ (cv.addImage w n I width height).1.activeImage = some w.imageStore.length
      ∧ (cv.addImage w n I width height).1.images.find n = (cv.addImage w n I width height).1.activeImage
      ∧ (cv.addImage w n I width height).2.image w.imageStore.length = Image.new n I width height
      ∧ (cv.addImage w n I width height).1.imageViewProgram ≠ none
      ∧ (cv.addImage w n I width height).2.errors = w.errors)
    ∧ (cv.images ≠ [] → cv.images.find n = none →
      (cv.addImage w n I width height).1 = { cv with images := cv.images.assign n w.imageStore.length }
      ∧ (cv.addImage w n I width height).1.images.find n = some w.imageStore.length
      ∧ (∀ k, k ≠ n → (cv.addImage w n I width height).1.images.find k = cv.images.find k)
      ∧ (cv.addImage w n I width height).2.image w.imageStore.length = Image.new n I width height
      ∧ (cv.addImage w n I width height).1.activeImage = cv.activeImage
      ∧ (cv.addImage w n I width height).1.imageViewProgram = cv.imageViewProgram
      ∧ (cv.addImage w n I width height).2.gl = w.gl
      ∧ (cv.addImage w n I width height).2.errors = w.errors)
    ∧ (∀ (b : String) (Ib : List Nat) (wb hb : Nat), cv.images = [] → b ≠ n →
      ((cv.addImage w n I width height).1.addImage (cv.addImage w n I width height).2 b Ib wb hb).1.activeImage = some w.imageStore.length
      ∧ ((cv.addImage w n I width height).1.addImage (cv.addImage w n I width height).2 b Ib wb hb).1.images.find n = some w.imageStore.length
      ∧ ((cv.addImage w n I width height).1.addImage (cv.addImage w n I width height).2 b Ib wb hb).2.image w.imageStore.length = Image.new n I width height
      ∧ ((cv.addImage w n I width height).1.addImage (cv.addImage w n I width height).2 b Ib wb hb).1.images.find b = some (w.imageStore.length + 1)
      ∧ ((cv.addImage w n I width height).1.addImage (cv.addImage w n I width height).2 b Ib wb hb).2.image (w.imageStore.length + 1) = Image.new b Ib wb hb
      ∧ ((cv.addImage w n I width height).1.addImage (cv.addImage w n I width height).2 b Ib wb hb).1.images.size = 2
      ∧ ((cv.addImage w n I width height).1.addImage (cv.addImage w n I width height).2 b Ib wb hb).1.imageViewProgram = (cv.addImage w n I width height).1.imageViewProgram
      ∧ ((cv.addImage w n I width height).1.addImage (cv.addImage w n I width height).2 b Ib wb hb).2.errors = w.errors) := by
  refine ⟨?_, ?_, ?_⟩
  · intro hemp
    rw [addImage_empty cv w n I width height hemp]
    have hfind : StdMap.find ([(n, w.imageStore.length)] : StdMap Nat) n
        = some w.imageStore.length := by simp [StdMap.find]
    have hq := setActiveImage_quad_aux ({ cv with images := [(n, w.imageStore.length)] })
      (w.newImage (Image.new n I width height)).2 n w.imageStore.length hfind
    obtain ⟨h1, h2, h3⟩ := hq
    rw [h1]
    refine ⟨rfl, rfl, hfind, ?_, by simp, ?_⟩
    · have := World.image_newImage w (Image.new n I width height)
      simpa [World.image, h2] using this
    · rw [h3]; rfl
  · intro hne habs
    rw [addImage_absent cv w n I width height habs hne]
    refine ⟨rfl, StdMap.find_assign_self _ _ _, ?_, World.image_newImage _ _, rfl, rfl, rfl, rfl⟩
    intro k hk
    exact StdMap.find_assign_ne _ _ _ _ hk
  · intro b Ib wb hb hemp hbn
    rw [addImage_empty cv w n I width height hemp]
    have hfind : StdMap.find ([(n, w.imageStore.length)] : StdMap Nat) n
        = some w.imageStore.length := by simp [StdMap.find]
    have hq := setActiveImage_quad_aux ({ cv with images := [(n, w.imageStore.length)] })
      (w.newImage (Image.new n I width height)).2 n w.imageStore.length hfind
    obtain ⟨h1, h2, h3⟩ := hq
    have hlen : (({ cv with images := [(n, w.imageStore.length)] } : CameraView).setActiveImage
        (w.newImage (Image.new n I width height)).2 n).2.imageStore.length
        = w.imageStore.length + 1 := by
      rw [h2]; simp [World.newImage]
    have habs : (({ cv with images := [(n, w.imageStore.length)] } : CameraView).setActiveImage
        (w.newImage (Image.new n I width height)).2 n).1.images.find b = none := by
      rw [h1]; simp [StdMap.find, hbn]
    have hne : (({ cv with images := [(n, w.imageStore.length)] } : CameraView).setActiveImage
        (w.newImage (Image.new n I width height)).2 n).1.images ≠ [] := by
      rw [h1]; simp
    rw [addImage_absent _ _ b Ib wb hb habs hne, hlen]
    have himg := World.image_newImage (({ cv with images := [(n, w.imageStore.length)] } :
      CameraView).setActiveImage (w.newImage (Image.new n I width height)).2 n).2
      (Image.new b Ib wb hb)
    rw [hlen] at himg
    have hold := World.image_newImage_old (({ cv with images := [(n, w.imageStore.length)] } :
      CameraView).setActiveImage (w.newImage (Image.new n I width height)).2 n).2
      (Image.new b Ib wb hb) w.imageStore.length (by rw [hlen]; exact Nat.lt_succ_self _)
    refine ⟨?_, ?_, ?_, ?_, himg, ?_, rfl, ?_⟩
    · rw [h1]
    · simp only []
      rw [StdMap.find_assign_ne _ _ _ _ (Ne.symm hbn), h1]
      exact hfind
    · rw [hold]
      have := World.image_newImage w (Image.new n I width height)
      simpa [World.image, h2] using this
    · exact StdMap.find_assign_self _ _ _
    · simp only []
      rw [StdMap.size_assign_absent _ _ _ habs, h1]
      rfl
    · exact h3.trans rfl

/-- Witness of `addImage_first_active`: `"A"` then `"B"` on the empty sample view, and
`"B"` on the view that already shows `"A"`. -/
theorem addImage_first_active_witness :
    sampleView.images = [] ∧ "B" ≠ "A"
    ∧ ((sampleView.addImage sampleWorld "A" [0, 0, 0] 1 1).1.images = [("A", sampleWorld.imageStore.length)]
      ∧ (sampleView.addImage sampleWorld "A" [0, 0, 0] 1 1).1.activeImage = some sampleWorld.imageStore.length
      ∧ (sampleView.addImage sampleWorld "A" [0, 0, 0] 1 1).1.images.find "A" = (sampleView.addImage sampleWorld "A" [0, 0, 0] 1 1).1.activeImage
      ∧ (sampleView.addImage sampleWorld "A" [0, 0, 0] 1 1).2.image sampleWorld.imageStore.length = Image.new "A" [0, 0, 0] 1 1
      ∧ (sampleView.addImage sampleWorld "A" [0, 0, 0] 1 1).1.imageViewProgram ≠ none
      ∧ (sampleView.addImage sampleWorld "A" [0, 0, 0] 1 1).2.errors = sampleWorld.errors)
    ∧ (((sampleView.addImage sampleWorld "A" [0, 0, 0] 1 1).1.addImage (sampleView.addImage sampleWorld "A" [0, 0, 0] 1 1).2 "B" [7, 7, 7] 1 1).1.activeImage = some sampleWorld.imageStore.length
      ∧ ((sampleView.addImage sampleWorld "A" [0, 0, 0] 1 1).1.addImage (sampleView.addImage sampleWorld "A" [0, 0, 0] 1 1).2 "B" [7, 7, 7] 1 1).1.images.find "A" = some sampleWorld.imageStore.length
      ∧ ((sampleView.addImage sampleWorld "A" [0, 0, 0] 1 1).1.addImage (sampleView.addImage sampleWorld "A" [0, 0, 0] 1 1).2 "B" [7, 7, 7] 1 1).2.image sampleWorld.imageStore.length = Image.new "A" [0, 0, 0] 1 1
      ∧ ((sampleView.addImage sampleWorld "A" [0, 0, 0] 1 1).1.addImage (sampleView.addImage sampleWorld "A" [0, 0, 0] 1 1).2 "B" [7, 7, 7] 1 1).1.images.find "B" = some (sampleWorld.imageStore.length + 1)
      ∧ ((sampleView.addImage sampleWorld "A" [0, 0, 0] 1 1).1.addImage (sampleView.addImage sampleWorld "A" [0, 0, 0] 1 1).2 "B" [7, 7, 7] 1 1).2.image (sampleWorld.imageStore.length + 1) = Image.new "B" [7, 7, 7] 1 1
      ∧ ((sampleView.addImage sampleWorld "A" [0, 0, 0] 1 1).1.addImage (sampleView.addImage sampleWorld "A" [0, 0, 0] 1 1).2 "B" [7, 7, 7] 1 1).1.images.size = 2
      ∧ ((sampleView.addImage sampleWorld "A" [0, 0, 0] 1 1).1.addImage (sampleView.addImage sampleWorld "A" [0, 0, 0] 1 1).2 "B" [7, 7, 7] 1 1).1.imageViewProgram = (sampleView.addImage sampleWorld "A" [0, 0, 0] 1 1).1.imageViewProgram
      ∧ ((sampleView.addImage sampleWorld "A" [0, 0, 0] 1 1).1.addImage (sampleView.addImage sampleWorld "A" [0, 0, 0] 1 1).2 "B" [7, 7, 7] 1 1).2.errors = sampleWorld.errors)
    ∧ sampleViewA.images ≠ [] ∧ sampleViewA.images.find "B" = none
    ∧ ((sampleViewA.addImage sampleWorldA "B" [7, 7, 7] 1 1).1 = { sampleViewA with
                images := sampleViewA.images.assign "B" sampleWorldA.imageStore.length }
      ∧ (sampleViewA.addImage sampleWorldA "B" [7, 7, 7] 1 1).1.images.find "B" = some sampleWorldA.imageStore.length
      ∧ (∀ k, k ≠ "B" → (sampleViewA.addImage sampleWorldA "B" [7, 7, 7] 1 1).1.images.find k = sampleViewA.images.find k)
      ∧ (sampleViewA.addImage sampleWorldA "B" [7, 7, 7] 1 1).2.image sampleWorldA.imageStore.length = Image.new "B" [7, 7, 7] 1 1
      ∧ (sampleViewA.addImage sampleWorldA "B" [7, 7, 7] 1 1).1.activeImage = sampleViewA.activeImage
      ∧ (sampleViewA.addImage sampleWorldA "B" [7, 7, 7] 1 1).1.imageViewProgram = sampleViewA.imageViewProgram
      ∧ (sampleViewA.addImage sampleWorldA "B" [7, 7, 7] 1 1).2.gl = sampleWorldA.gl
      ∧ (sampleViewA.addImage sampleWorldA "B" [7, 7, 7] 1 1).2.errors = sampleWorldA.errors) :=
  ⟨rfl, by decide,
   (addImage_first_active sampleView sampleWorld "A" [0, 0, 0] 1 1).1 rfl,
   (addImage_first_active sampleView sampleWorld "A" [0, 0, 0] 1 1).2.2 "B" [7, 7, 7] 1 1 rfl
     (by decide),
   by decide, by decide,
   (addImage_first_active sampleViewA sampleWorldA "B" [7, 7, 7] 1 1).2.1 (by decide) (by decide)⟩

/-! ## Clearing the active image -/

theorem drawWireframe_frame (cv : CameraView) (w : World) :
    (cv.drawWireframe w).1.imageViewProgram = cv.imageViewProgram
    ∧ (cv.drawWireframe w).1.imageTransparency = cv.imageTransparency
    ∧ (cv.drawWireframe w).2.cameraViewMatrix = w.cameraViewMatrix
    ∧ (cv.drawWireframe w).2.cameraPerspectiveMatrix = w.cameraPerspectiveMatrix := by
  cases hp : cv.cameraSkeletonProgram <;>
    simp [CameraView.drawWireframe, CameraView.prepareCameraSkeleton, hp, GLState.newProgram,
      GLState.call]

theorem drawImageView_log (cv : CameraView) (w : World) (p : Handle)
    (hprog : cv.imageViewProgram = some p) :
    (cv.drawImageView w).2.gl.log = w.gl.log
      ++ [GLCall.enable "GL_BLEND",
          GLCall.blendFunc "GL_SRC_ALPHA" "GL_ONE_MINUS_SRC_ALPHA",
          GLCall.setUniform p "u_viewMatrix" (UniformVal.mat4 w.cameraViewMatrix),
          GLCall.setUniform p "u_projMatrix" (UniformVal.mat4 w.cameraPerspectiveMatrix),
          GLCall.setUniform p "u_transparency" (UniformVal.float cv.imageTransparency),
          GLCall.draw p] := by
  simp [CameraView.drawImageView, hprog, GLState.call]

theorem draw_enabled (cv : CameraView) (w : World) (hen : cv.enabled = true) :
    cv.draw w = (cv.drawWireframe w).1.drawImageView (cv.drawWireframe w).2 := by
  simp [CameraView.draw, hen]

/-- C1, as the code has it: on a view whose image program pointer is `p`,
`clearActiveImage` releases `p` and nulls `activeImage`, the image map and the
stored images are untouched, but `imageViewProgram` still holds `p`; the next
`draw()` of the enabled view therefore sets three uniforms on the released program
`p` and draws it. -/
theorem clearActiveImage_keeps_program (cv : CameraView) (w : World) (p : Handle)
    (hprog : cv.imageViewProgram = some p) (hen : cv.enabled = true) :
    (cv.clearActiveImage w).1 = { cv with activeImage := none }
    ∧ (cv.clearActiveImage w).1.activeImage = none
    ∧ (cv.clearActiveImage w).1.imageViewProgram = some p
    ∧ (cv.clearActiveImage w).1.images = cv.images
    ∧ (cv.clearActiveImage w).2.imageStore = w.imageStore
    ∧ (cv.clearActiveImage w).2.gl.log = w.gl.log ++ [GLCall.delete p]
    ∧ released (cv.clearActiveImage w).2.gl.log p = true
    ∧ ((cv.clearActiveImage w).1.draw (cv.clearActiveImage w).2).2.gl.log
        = ((cv.clearActiveImage w).1.drawWireframe (cv.clearActiveImage w).2).2.gl.log
          ++ [GLCall.enable "GL_BLEND",
              GLCall.blendFunc "GL_SRC_ALPHA" "GL_ONE_MINUS_SRC_ALPHA",
              GLCall.setUniform p "u_viewMatrix" (UniformVal.mat4 w.cameraViewMatrix),
              GLCall.setUniform p "u_projMatrix" (UniformVal.mat4 w.cameraPerspectiveMatrix),
              GLCall.setUniform p "u_transparency" (UniformVal.float cv.imageTransparency),
              GLCall.draw p] := by
  have hc : cv.clearActiveImage w
      = ({ cv with activeImage := none }, { w with gl := w.gl.call (GLCall.delete p) }) := by
    simp [CameraView.clearActiveImage, hprog]
  rw [hc]
  refine ⟨rfl, rfl, hprog, rfl, rfl, rfl, ?_, ?_⟩
  · simp [released, GLState.call]
  · obtain ⟨h1, h2, h3, h4⟩ := drawWireframe_frame { cv with activeImage := none }
      { w with gl := w.gl.call (GLCall.delete p) }
    have hd := draw_enabled ({ cv with activeImage := none } : CameraView)
      { w with gl := w.gl.call (GLCall.delete p) } hen
    have hl := drawImageView_log
      (({ cv with activeImage := none } : CameraView).drawWireframe
        { w with gl := w.gl.call (GLCall.delete p) }).1
      (({ cv with activeImage := none } : CameraView).drawWireframe
        { w with gl := w.gl.call (GLCall.delete p) }).2 p (h1.trans hprog)
    rw [h2, h3, h4] at hl
    show (CameraView.draw _ _).2.gl.log = _
    rw [hd]
    exact hl

/-- Witness of `clearActiveImage_keeps_program`: the view that shows `"A"` through the
program 1. -/
theorem clearActiveImage_keeps_program_witness :
    sampleViewA.imageViewProgram = some 1 ∧ sampleViewA.enabled = true ∧
    (
    (sampleViewA.clearActiveImage sampleWorldA).1 = { sampleViewA with activeImage := none }
    ∧ (sampleViewA.clearActiveImage sampleWorldA).1.activeImage = none
    ∧ (sampleViewA.clearActiveImage sampleWorldA).1.imageViewProgram = some 1
    ∧ (sampleViewA.clearActiveImage sampleWorldA).1.images = sampleViewA.images
    ∧ (sampleViewA.clearActiveImage sampleWorldA).2.imageStore = sampleWorldA.imageStore
    ∧ (sampleViewA.clearActiveImage sampleWorldA).2.gl.log = sampleWorldA.gl.log ++ [GLCall.delete 1]
    ∧ released (sampleViewA.clearActiveImage sampleWorldA).2.gl.log 1 = true
    ∧ ((sampleViewA.clearActiveImage sampleWorldA).1.draw (sampleViewA.clearActiveImage sampleWorldA).2).2.gl.log
        = ((sampleViewA.clearActiveImage sampleWorldA).1.drawWireframe (sampleViewA.clearActiveImage sampleWorldA).2).2.gl.log
          ++ [GLCall.enable "GL_BLEND",
              GLCall.blendFunc "GL_SRC_ALPHA" "GL_ONE_MINUS_SRC_ALPHA",
              GLCall.setUniform 1 "u_viewMatrix" (UniformVal.mat4 sampleWorldA.cameraViewMatrix),
              GLCall.setUniform 1 "u_projMatrix" (UniformVal.mat4 sampleWorldA.cameraPerspectiveMatrix),
              GLCall.setUniform 1 "u_transparency" (UniformVal.float sampleViewA.imageTransparency),
              GLCall.draw 1]) :=
  ⟨rfl, rfl, clearActiveImage_keeps_program sampleViewA sampleWorldA 1 rfl rfl⟩

/-! ## The vector quantity -/

/-- C6: the constructor always yields a quantity that stores the given vectors
unchanged and has no program; it reports exactly one error when the number of
vectors differs from the number of points of the parent, and none when they agree;
it makes no call on the GPU layer and leaves the points of the parent alone. -/
theorem new_shape_mismatch (ext : Externals) (name : String) (vectors : List Vector3)
    (parent : PointCloud) (vt : VectorType) (w : World) :
    (PointCloudVectorQuantity.new ext name vectors parent vt w).1.vectors = vectors
    ∧ (PointCloudVectorQuantity.new ext name vectors parent vt w).1.program = none
    ∧ (PointCloudVectorQuantity.new ext name vectors parent vt w).1.name = name
    ∧ (PointCloudVectorQuantity.new ext name vectors parent vt w).1.vectorType = vt
    ∧ (PointCloudVectorQuantity.new ext name vectors parent vt w).2.1.points = parent.points
    ∧ (PointCloudVectorQuantity.new ext name vectors parent vt w).2.2.gl = w.gl
    ∧ (vectors.length ≠ parent.points.length →
        (PointCloudVectorQuantity.new ext name vectors parent vt w).2.2.errors
          = w.errors ++ ["Point cloud vector quantity " ++ name
              ++ " does not have same number of values (" ++ toString vectors.length
              ++ ") as point cloud size (" ++ toString parent.points.length ++ ")"]
        ∧ (PointCloudVectorQuantity.new ext name vectors parent vt w).2.2.errors.length
          = w.errors.length + 1)
    ∧ (vectors.length = parent.points.length →
        (PointCloudVectorQuantity.new ext name vectors parent vt w).2.2.errors = w.errors) := by
  refine ⟨rfl, rfl, rfl, rfl, rfl, ?_, ?_, ?_⟩
  · by_cases h : vectors.length = parent.points.length <;>
      simp [PointCloudVectorQuantity.new, h, World.error]
  · intro h
    simp [PointCloudVectorQuantity.new, h, World.error]
  · intro h
    simp [PointCloudVectorQuantity.new, h]

/-- Witness of `new_shape_mismatch`: three vectors on the cloud of five points give one
error, five vectors give none. -/
theorem new_shape_mismatch_witness :
    sampleVectors.length ≠ sampleCloud.points.length
    ∧ (PointCloudVectorQuantity.new sampleExternals "v" sampleVectors sampleCloud
        VectorType.STANDARD sampleWorld).2.2.errors
      = sampleWorld.errors ++ ["Point cloud vector quantity " ++ "v"
          ++ " does not have same number of values (" ++ toString sampleVectors.length
          ++ ") as point cloud size (" ++ toString sampleCloud.points.length ++ ")"]
    ∧ (PointCloudVectorQuantity.new sampleExternals "v" sampleVectors sampleCloud
        VectorType.STANDARD sampleWorld).2.2.errors.length = sampleWorld.errors.length + 1
    ∧ (PointCloudVectorQuantity.new sampleExternals "v" sampleVectors sampleCloud
        VectorType.STANDARD sampleWorld).1.vectors = sampleVectors
    ∧ (PointCloudVectorQuantity.new sampleExternals "v" sampleVectors sampleCloud
        VectorType.STANDARD sampleWorld).1.program = none
    ∧ sampleCloud.points.length = sampleCloud.points.length
    ∧ (PointCloudVectorQuantity.new sampleExternals "p" sampleCloud.points sampleCloud
        VectorType.AMBIENT sampleWorld).2.2.errors = sampleWorld.errors :=
  have hne : sampleVectors.length ≠ sampleCloud.points.length := by decide
  have h := new_shape_mismatch sampleExternals "v" sampleVectors sampleCloud VectorType.STANDARD
    sampleWorld
  ⟨hne, (h.2.2.2.2.2.2.1 hne).1, (h.2.2.2.2.2.2.1 hne).2, h.1, h.2.1, rfl,
   (new_shape_mismatch sampleExternals "p" sampleCloud.points sampleCloud VectorType.AMBIENT
      sampleWorld).2.2.2.2.2.2.2 rfl⟩

theorem foldl_push_map {α β : Type} (f : α → β) (l : List α) (init : List β) :
    l.foldl (fun acc v => acc ++ [f v]) init = init ++ l.map f := by
  induction l generalizing init with
  | nil => simp
  | cons a rest ih => simp [ih]

theorem prepare_eq (q : PointCloudVectorQuantity) (parent : PointCloud) (w : World) :
    q.prepare parent w
      = ({ q with program := some w.gl.next },
         { w with gl := { next := w.gl.next + 1,
                          log := w.gl.log ++ q.prepareCalls parent w.gl.next } }) := by
  simp [PointCloudVectorQuantity.prepare, PointCloudVectorQuantity.prepareCalls,
    GLState.newProgram, GLState.call, foldl_push_map]

theorem draw_disabled (q : PointCloudVectorQuantity) (parent : PointCloud) (w : World)
    (hen : q.enabled = false) : q.draw parent w = (q, w) := by
  simp [PointCloudVectorQuantity.draw, hen]

theorem draw_some (q : PointCloudVectorQuantity) (parent : PointCloud) (w : World) (p : Handle)
    (hen : q.enabled = true) (hp : q.program = some p) :
    q.draw parent w
      = (q, { w with gl := { next := w.gl.next, log := w.gl.log ++ q.drawCalls w p } }) := by
  by_cases hv : q.vectorType = VectorType.AMBIENT <;>
    simp [PointCloudVectorQuantity.draw, hen, hp, PointCloudVectorQuantity.drawCalls,
      GLState.call, hv]

theorem draw_none (q : PointCloudVectorQuantity) (parent : PointCloud) (w : World)
    (hen : q.enabled = true) (hp : q.program = none) :
    q.draw parent w
      = ({ q with program := some w.gl.next },
         { w with gl := { next := w.gl.next + 1,
                          log := w.gl.log ++ q.prepareCalls parent w.gl.next
                            ++ q.drawCalls w w.gl.next } }) := by
  by_cases hv : q.vectorType = VectorType.AMBIENT <;>
    simp [PointCloudVectorQuantity.draw, hen, hp, prepare_eq, PointCloudVectorQuantity.drawCalls,
      GLState.call, hv]

theorem uploaded_append_drawCalls (log : List GLCall) (q : PointCloudVectorQuantity) (w : World)
    (p h : Handle) (name : String) :
    uploaded (log ++ q.drawCalls w p) h name = uploaded log h name := by
  simp [uploaded, List.foldl_append, PointCloudVectorQuantity.drawCalls]

/-- C10: `prepare` builds one program in point mode and uploads as `a_vector` the
current vectors, each passed through the mapper, in order, and as `a_position` the
current points of the parent; so an enabled `draw()` on a quantity whose program is
null uploads buffers computed from the data of that moment. -/
theorem prepare_uploads_current (q : PointCloudVectorQuantity) (parent : PointCloud)
    (w : World) :
    (q.prepare parent w).1 = { q with program := some w.gl.next }
    ∧ (q.prepare parent w).2.gl.log = w.gl.log ++
        [GLCall.create w.gl.next
           ["PASSTHRU_VECTOR_VERT_SHADER", "VECTOR_GEOM_SHADER", "SHINY_VECTOR_FRAG_SHADER"]
           DrawMode.Points,
         GLCall.setAttribute w.gl.next "a_vector" (AttrData.vec3s (q.vectors.map q.mapper.map)),
         GLCall.setAttribute w.gl.next "a_position" (AttrData.vec3s parent.points)]
    ∧ uploaded (q.prepare parent w).2.gl.log w.gl.next "a_vector"
        = some (AttrData.vec3s (q.vectors.map q.mapper.map))
    ∧ uploaded (q.prepare parent w).2.gl.log w.gl.next "a_position"
        = some (AttrData.vec3s parent.points)
    ∧ (q.vectors.map q.mapper.map).length = q.vectors.length
    ∧ (∀ (i : Nat) (v : Vector3), q.vectors[i]? = some v → (q.vectors.map q.mapper.map)[i]? = some (q.mapper.map v))
    ∧ (q.program = none → q.enabled = true →
        (q.draw parent w).1.program = some w.gl.next
        ∧ uploaded (q.draw parent w).2.gl.log w.gl.next "a_vector"
            = some (AttrData.vec3s (q.vectors.map q.mapper.map))
        ∧ uploaded (q.draw parent w).2.gl.log w.gl.next "a_position"
            = some (AttrData.vec3s parent.points)) := by
  have hlog : (q.prepare parent w).2.gl.log = w.gl.log ++ q.prepareCalls parent w.gl.next := by
    rw [prepare_eq]
  refine ⟨by rw [prepare_eq], hlog, ?_, ?_, by simp, ?_, ?_⟩
  · rw [hlog]
    simp [uploaded, List.foldl_append, PointCloudVectorQuantity.prepareCalls]
  · rw [hlog]
    simp [uploaded, List.foldl_append, PointCloudVectorQuantity.prepareCalls]
  · intro i v hv
    simp [List.getElem?_map, hv]
  · intro hp hen
    rw [draw_none q parent w hen hp]
    refine ⟨rfl, ?_, ?_⟩
    · show uploaded (w.gl.log ++ q.prepareCalls parent w.gl.next ++ q.drawCalls w w.gl.next) _ _ = _
      rw [uploaded_append_drawCalls]
      simp [uploaded, List.foldl_append, PointCloudVectorQuantity.prepareCalls]
    · show uploaded (w.gl.log ++ q.prepareCalls parent w.gl.next ++ q.drawCalls w w.gl.next) _ _ = _
      rw [uploaded_append_drawCalls]
      simp [uploaded, List.foldl_append, PointCloudVectorQuantity.prepareCalls]

/-- Witness of `prepare_uploads_current`: the first enabled draw of the sample quantity
uploads its three vectors doubled and the five points of the cloud. -/
theorem prepare_uploads_current_witness :
    (sampleQuantityOn.program = none ∧ sampleQuantityOn.enabled = true)
    ∧ (sampleQuantityOn.draw sampleCloud sampleWorld).1.program = some sampleWorld.gl.next
    ∧ uploaded (sampleQuantityOn.draw sampleCloud sampleWorld).2.gl.log sampleWorld.gl.next "a_vector"
        = some (AttrData.vec3s (sampleQuantityOn.vectors.map sampleQuantityOn.mapper.map))
    ∧ uploaded (sampleQuantityOn.draw sampleCloud sampleWorld).2.gl.log sampleWorld.gl.next "a_position"
        = some (AttrData.vec3s sampleCloud.points)
    ∧ sampleQuantityOn.vectors.map sampleQuantityOn.mapper.map = [⟨2, 0, 0⟩, ⟨0, 4, 0⟩, ⟨0, 0, 6⟩] :=
  have h := (prepare_uploads_current sampleQuantityOn sampleCloud sampleWorld).2.2.2.2.2.2 rfl rfl
  ⟨⟨rfl, rfl⟩, h.1, h.2.1, h.2.2, by
    simp [sampleQuantityOn, sampleQuantity, sampleVectors]; norm_num⟩

/-! ## Lazy build -/

theorem prepareCount_append (l1 l2 : List GLCall) :
    prepareCount (l1 ++ l2) = prepareCount l1 + prepareCount l2 := by
  simp [prepareCount, List.countP_append]

theorem prepareCount_drawCalls (q : PointCloudVectorQuantity) (w : World) (p : Handle) :
    prepareCount (q.drawCalls w p) = 0 := by
  simp [prepareCount, PointCloudVectorQuantity.drawCalls, GLCall.isCreate]

theorem prepareCount_prepareCalls (q : PointCloudVectorQuantity) (parent : PointCloud)
    (p : Handle) : prepareCount (q.prepareCalls parent p) = 1 := by
  simp [prepareCount, PointCloudVectorQuantity.prepareCalls, GLCall.isCreate]

theorem drawFrames_cons (parent : PointCloud) (b : Bool) (rest : List Bool)
    (s : PointCloudVectorQuantity × World) :
    drawFrames parent (b :: rest) s
      = drawFrames parent rest (PointCloudVectorQuantity.draw { s.1 with enabled := b } parent s.2) :=
  rfl

theorem drawFrames_append (parent : PointCloud) (l1 l2 : List Bool)
    (s : PointCloudVectorQuantity × World) :
    drawFrames parent (l1 ++ l2) s = drawFrames parent l2 (drawFrames parent l1 s) := by
  simp [drawFrames, List.foldl_append]

theorem drawFrames_some (parent : PointCloud) (flags : List Bool) :
    ∀ (q : PointCloudVectorQuantity) (w : World) (p : Handle), q.program = some p →
      (drawFrames parent flags (q, w)).1.program = some p
      ∧ prepareCount (drawFrames parent flags (q, w)).2.gl.log = prepareCount w.gl.log := by
  induction flags with
  | nil => intro q w p hp; exact ⟨hp, rfl⟩
  | cons b rest ih =>
    intro q w p hp
    rw [drawFrames_cons]
    cases b with
    | false =>
      rw [draw_disabled _ parent w rfl]
      exact ih _ w p hp
    | true =>
      rw [draw_some { q with enabled := true } parent w p rfl hp]
      obtain ⟨h1, h2⟩ := ih { q with enabled := true }
        { w with gl := { next := w.gl.next,
                         log := w.gl.log ++ PointCloudVectorQuantity.drawCalls
                           { q with enabled := true } w p } } p hp
      refine ⟨h1, ?_⟩
      rw [h2]
      simp [prepareCount_append, prepareCount_drawCalls]

theorem drawFrames_none (parent : PointCloud) (flags : List Bool) :
    ∀ (q : PointCloudVectorQuantity) (w : World), q.program = none →
      (true ∉ flags →
        (drawFrames parent flags (q, w)).1.program = none
        ∧ (drawFrames parent flags (q, w)).2 = w)
      ∧ (true ∈ flags →
        (drawFrames parent flags (q, w)).1.program = some w.gl.next
        ∧ prepareCount (drawFrames parent flags (q, w)).2.gl.log = prepareCount w.gl.log + 1) := by
  induction flags with
  | nil =>
    intro q w hp
    exact ⟨fun _ => ⟨hp, rfl⟩, fun h => absurd h (by simp)⟩
  | cons b rest ih =>
    intro q w hp
    rw [drawFrames_cons]
    cases b with
    | false =>
      rw [draw_disabled _ parent w rfl]
      obtain ⟨h1, h2⟩ := ih { q with enabled := false } w hp
      constructor
      · intro hn
        exact h1 (by simpa using hn)
      · intro hm
        exact h2 (by simpa using hm)
    | true =>
      rw [draw_none { q with enabled := true } parent w rfl hp]
      constructor
      · intro hn
        exact absurd (List.mem_cons_self _ _) hn
      · intro _
        obtain ⟨h1, h2⟩ := drawFrames_some parent rest
          { q with enabled := true, program := some w.gl.next }
          { w with gl := { next := w.gl.next + 1,
                           log := w.gl.log
                             ++ PointCloudVectorQuantity.prepareCalls { q with enabled := true }
                                  parent w.gl.next
                             ++ PointCloudVectorQuantity.drawCalls { q with enabled := true } w
                                  w.gl.next } } w.gl.next rfl
        refine ⟨h1, ?_⟩
        rw [h2]
        simp [prepareCount_append, prepareCount_drawCalls, prepareCount_prepareCalls]

theorem draw_off (q : PointCloudVectorQuantity) (parent : PointCloud) (w : World) :
    PointCloudVectorQuantity.draw { q with enabled := false } parent w
      = ({ q with enabled := false }, w) :=
  draw_disabled _ parent w rfl

theorem draw_on_some (q : PointCloudVectorQuantity) (parent : PointCloud) (w : World) (p : Handle)
    (hp : q.program = some p) :
    PointCloudVectorQuantity.draw { q with enabled := true } parent w
      = ({ q with enabled := true },
         { w with gl := { next := w.gl.next, log := w.gl.log ++ q.drawCalls w p } }) :=
  draw_some { q with enabled := true } parent w p rfl hp

theorem draw_on_none (q : PointCloudVectorQuantity) (parent : PointCloud) (w : World)
    (hp : q.program = none) :
    PointCloudVectorQuantity.draw { q with enabled := true } parent w
      = ({ q with enabled := true, program := some w.gl.next },
         { w with gl := { next := w.gl.next + 1,
                          log := w.gl.log ++ q.prepareCalls parent w.gl.next
                            ++ q.drawCalls w w.gl.next } }) :=
  draw_none { q with enabled := true } parent w rfl hp

/-- C9: in any run of `draw()` calls on a quantity that starts without a program and
is never invalidated, exactly one program is built if some draw happens while
enabled and none otherwise; a draw on a quantity that has a program builds
nothing; a draw while disabled changes nothing and reaches the GPU layer with no
call; the first enabled draw builds the program and draws it, and every later
enabled draw issues its uniforms and its draw call on that same program. -/
theorem draw_never_double_builds (q : PointCloudVectorQuantity) (parent : PointCloud) (w : World)
    (flags : List Bool) (hfresh : q.program = none) :
    prepareCount (drawFrames parent flags (q, w)).2.gl.log
        = prepareCount w.gl.log + (if true ∈ flags then 1 else 0)
    ∧ (drawFrames parent flags (q, w)).1.program
        = (if true ∈ flags then some w.gl.next else none)
    ∧ (∀ (pre : List Bool) (b : Bool) (post : List Bool), flags = pre ++ b :: post →
        ((drawFrames parent pre (q, w)).1.program ≠ none →
          prepareCount (PointCloudVectorQuantity.draw
              { (drawFrames parent pre (q, w)).1 with enabled := b } parent
              (drawFrames parent pre (q, w)).2).2.gl.log
            = prepareCount (drawFrames parent pre (q, w)).2.gl.log)
        ∧ (b = false →
          PointCloudVectorQuantity.draw
              { (drawFrames parent pre (q, w)).1 with enabled := b } parent
              (drawFrames parent pre (q, w)).2
            = ({ (drawFrames parent pre (q, w)).1 with enabled := b },
               (drawFrames parent pre (q, w)).2))
        ∧ (b = true → true ∉ pre →
          (drawFrames parent pre (q, w)).1.program = none
          ∧ (drawFrames parent pre (q, w)).2.gl = w.gl
          ∧ (PointCloudVectorQuantity.draw
              { (drawFrames parent pre (q, w)).1 with enabled := b } parent
              (drawFrames parent pre (q, w)).2).1.program = some w.gl.next
          ∧ (PointCloudVectorQuantity.draw
              { (drawFrames parent pre (q, w)).1 with enabled := b } parent
              (drawFrames parent pre (q, w)).2).2.gl.log
            = w.gl.log
              ++ (drawFrames parent pre (q, w)).1.prepareCalls parent w.gl.next
              ++ (drawFrames parent pre (q, w)).1.drawCalls (drawFrames parent pre (q, w)).2
                  w.gl.next)
        ∧ (b = true → true ∈ pre →
          (drawFrames parent pre (q, w)).1.program = some w.gl.next
          ∧ (PointCloudVectorQuantity.draw
              { (drawFrames parent pre (q, w)).1 with enabled := b } parent
              (drawFrames parent pre (q, w)).2).1.program = some w.gl.next
          ∧ (PointCloudVectorQuantity.draw
              { (drawFrames parent pre (q, w)).1 with enabled := b } parent
              (drawFrames parent pre (q, w)).2).2.gl.log
            = (drawFrames parent pre (q, w)).2.gl.log
              ++ (drawFrames parent pre (q, w)).1.drawCalls (drawFrames parent pre (q, w)).2
                  w.gl.next)) := by
  obtain ⟨hno, hyes⟩ := drawFrames_none parent flags q w hfresh
  refine ⟨?_, ?_, ?_⟩
  · by_cases h : true ∈ flags
    · simp [h, (hyes h).2]
    · simp [h, (hno h).2]
  · by_cases h : true ∈ flags
    · simp [h, (hyes h).1]
    · simp [h, (hno h).1]
  · intro pre b post _
    obtain ⟨pno, pyes⟩ := drawFrames_none parent pre q w hfresh
    generalize drawFrames parent pre (q, w) = s at pno pyes ⊢
    obtain ⟨qs, ws⟩ := s
    dsimp only at pno pyes ⊢
    refine ⟨?_, ?_, ?_, ?_⟩
    · intro hsome
      obtain ⟨p, hp⟩ := Option.ne_none_iff_exists'.mp hsome
      cases b with
      | false => rw [draw_off]
      | true =>
        rw [draw_on_some qs parent ws p hp]
        simp [prepareCount_append, prepareCount_drawCalls]
    · intro hb
      subst hb
      exact draw_off qs parent ws
    · intro hb hn
      subst hb
      obtain ⟨h1, h2⟩ := pno hn
      subst h2
      refine ⟨h1, rfl, ?_, ?_⟩
      · rw [draw_on_none qs parent ws h1]
      · rw [draw_on_none qs parent ws h1]
    · intro hb hm
      subst hb
      obtain ⟨h1, _⟩ := pyes hm
      refine ⟨h1, ?_, ?_⟩
      · rw [draw_on_some qs parent ws w.gl.next h1]
        exact h1
      · rw [draw_on_some qs parent ws w.gl.next h1]

/-- Witness of `draw_never_double_builds`: the sample quantity drawn three times, first
disabled, then enabled twice; the third draw reuses the program of the second. -/
theorem draw_never_double_builds_witness :
    sampleQuantity.program = none
    ∧ (
    prepareCount (drawFrames sampleCloud [false, true, true] (sampleQuantity, sampleWorld)).2.gl.log
        = prepareCount sampleWorld.gl.log + (if true ∈ [false, true, true] then 1 else 0)
    ∧ (drawFrames sampleCloud [false, true, true] (sampleQuantity, sampleWorld)).1.program
        = (if true ∈ [false, true, true] then some sampleWorld.gl.next else none)
    ∧ (∀ (pre : List Bool) (b : Bool) (post : List Bool), [false, true, true] = pre ++ b :: post →
        ((drawFrames sampleCloud pre (sampleQuantity, sampleWorld)).1.program ≠ none →
          prepareCount (PointCloudVectorQuantity.draw
              { (drawFrames sampleCloud pre (sampleQuantity, sampleWorld)).1 with enabled := b } sampleCloud
              (drawFrames sampleCloud pre (sampleQuantity, sampleWorld)).2).2.gl.log
            = prepareCount (drawFrames sampleCloud pre (sampleQuantity, sampleWorld)).2.gl.log)
        ∧ (b = false →
          PointCloudVectorQuantity.draw
              { (drawFrames sampleCloud pre (sampleQuantity, sampleWorld)).1 with enabled := b } sampleCloud
              (drawFrames sampleCloud pre (sampleQuantity, sampleWorld)).2
            = ({ (drawFrames sampleCloud pre (sampleQuantity, sampleWorld)).1 with enabled := b },
               (drawFrames sampleCloud pre (sampleQuantity, sampleWorld)).2))
        ∧ (b = true → true ∉ pre →
          (drawFrames sampleCloud pre (sampleQuantity, sampleWorld)).1.program = none
          ∧ (drawFrames sampleCloud pre (sampleQuantity, sampleWorld)).2.gl = sampleWorld.gl
          ∧ (PointCloudVectorQuantity.draw
              { (drawFrames sampleCloud pre (sampleQuantity, sampleWorld)).1 with enabled := b } sampleCloud
              (drawFrames sampleCloud pre (sampleQuantity, sampleWorld)).2).1.program = some sampleWorld.gl.next
          ∧ (PointCloudVectorQuantity.draw
              { (drawFrames sampleCloud pre (sampleQuantity, sampleWorld)).1 with enabled := b } sampleCloud
              (drawFrames sampleCloud pre (sampleQuantity, sampleWorld)).2).2.gl.log
            = sampleWorld.gl.log
              ++ (drawFrames sampleCloud pre (sampleQuantity, sampleWorld)).1.prepareCalls sampleCloud sampleWorld.gl.next
              ++ (drawFrames sampleCloud pre (sampleQuantity, sampleWorld)).1.drawCalls (drawFrames sampleCloud pre (sampleQuantity, sampleWorld)).2
                  sampleWorld.gl.next)
        ∧ (b = true → true ∈ pre →
          (drawFrames sampleCloud pre (sampleQuantity, sampleWorld)).1.program = some sampleWorld.gl.next
          ∧ (PointCloudVectorQuantity.draw
              { (drawFrames sampleCloud pre (sampleQuantity, sampleWorld)).1 with enabled := b } sampleCloud
              (drawFrames sampleCloud pre (sampleQuantity, sampleWorld)).2).1.program = some sampleWorld.gl.next
          ∧ (PointCloudVectorQuantity.draw
              { (drawFrames sampleCloud pre (sampleQuantity, sampleWorld)).1 with enabled := b } sampleCloud
              (drawFrames sampleCloud pre (sampleQuantity, sampleWorld)).2).2.gl.log
            = (drawFrames sampleCloud pre (sampleQuantity, sampleWorld)).2.gl.log
              ++ (drawFrames sampleCloud pre (sampleQuantity, sampleWorld)).1.drawCalls (drawFrames sampleCloud pre (sampleQuantity, sampleWorld)).2
                  sampleWorld.gl.next)))
    ∧ ([false, true, true] = [false, true] ++ true :: ([] : List Bool) ∧ true ∈ [false, true])
    ∧ (

          (drawFrames sampleCloud [false, true] (sampleQuantity, sampleWorld)).1.program = some sampleWorld.gl.next
          ∧ (PointCloudVectorQuantity.draw
              { (drawFrames sampleCloud [false, true] (sampleQuantity, sampleWorld)).1 with enabled := true } sampleCloud
              (drawFrames sampleCloud [false, true] (sampleQuantity, sampleWorld)).2).1.program = some sampleWorld.gl.next
          ∧ (PointCloudVectorQuantity.draw
              { (drawFrames sampleCloud [false, true] (sampleQuantity, sampleWorld)).1 with enabled := true } sampleCloud
              (drawFrames sampleCloud [false, true] (sampleQuantity, sampleWorld)).2).2.gl.log
            = (drawFrames sampleCloud [false, true] (sampleQuantity, sampleWorld)).2.gl.log
              ++ (drawFrames sampleCloud [false, true] (sampleQuantity, sampleWorld)).1.drawCalls (drawFrames sampleCloud [false, true] (sampleQuantity, sampleWorld)).2
                  sampleWorld.gl.next) :=
  ⟨rfl, draw_never_double_builds sampleQuantity sampleCloud sampleWorld [false, true, true] rfl,
   ⟨rfl, by decide⟩,
   ((draw_never_double_builds sampleQuantity sampleCloud sampleWorld [false, true, true] rfl).2.2
      [false, true] true [] rfl).2.2.2 rfl (by decide)⟩

end Polyscope
